import Mathlib

/-!
# Verification of the H8760 hydrogen-project simulation engine

A shallow embedding, in Lean 4, of the numeric core of the H8760 repository
(`backend/app/engine/`): the 8760-hour dispatch model (`energy_8760.py`),
the project-finance model and IRR root-finder (`financial.py`), the Monte
Carlo percentile reporting (`monte_carlo.py`) and the grid-search
combination enumeration (`grid_search.py`, `api/routes/optimization.py`),
together with theorems settling the stated properties of these components.

Modelling conventions:
* Python floats are embedded as exact rationals (`ℚ`); decimal literals are
  read as the decimal fractions they denote.  Computations that the source
  performs with non-integer exponents (`x ** 0.5`, `x ** (1/life)`) are
  embedded in `ℝ` with real exponentiation, so the financial model lives
  in `ℝ` while everything the source computes with field operations only
  stays in `ℚ`.
* Python `raise ValueError` is embedded as `Except.error`; a function that
  validates its inputs returns `Except String α`.
* `numpy` pseudo-random draws (`rng.random(8760)` for the availability
  mask, with `rng = np.random.RandomState(42 + year)`) are abstracted as an
  explicit draw stream `draw : ℕ → ℕ → ℚ` indexed by year and hour; the
  source seeds a fresh generator per year, so the stream may differ from
  one year to the next.
* `float("inf")` in the DSCR column is embedded as `⊤ : EReal`.
-/

namespace H8760

/-! ## `energy_8760.py` — the 8760-hour dispatch engine -/

/-- `Energy8760Config` (energy_8760.py lines 11-20). -/
structure Energy8760Config where
  electrolyzer_capacity_mw : ℚ
  electrolyzer_efficiency : ℚ
  specific_consumption : ℚ
  degradation_rate : ℚ
  annual_availability : ℚ
  price_threshold : ℚ

/-- `degradation_factor = (1 - degradation_rate / 100) ** (year - 1)`
(energy_8760.py line 68; the engine is always called with `year ≥ 1`). -/
def degradationFactor (config : Energy8760Config) (year : ℕ) : ℚ :=
  (1 - config.degradation_rate / 100) ^ (year - 1)

/-- `effective_efficiency = electrolyzer_efficiency * degradation_factor / 100`
(energy_8760.py line 69). -/
def effectiveEfficiency (config : Energy8760Config) (year : ℕ) : ℚ :=
  config.electrolyzer_efficiency * degradationFactor config year / 100

/-- `availability_mask = rng.random(hours) < annual_availability / 100` with
`rng = np.random.RandomState(42 + year)` (energy_8760.py lines 74-75); the
per-year pseudo-random stream is abstracted as `draw year hour`. -/
def availabilityMask (config : Energy8760Config) (draw : ℕ → ℕ → ℚ)
    (year hour : ℕ) : Bool :=
  decide (draw year hour < config.annual_availability / 100)

/-- Available power for one hour: the renewable output when a renewable
series is given, else the electrolyzer capacity (energy_8760.py lines 93-97). -/
def availablePowerMW (config : Energy8760Config) (renewable_output : Option (List ℚ))
    (hour : ℕ) : ℚ :=
  match renewable_output with
  | some ro => ro.getD hour 0
  | none => config.electrolyzer_capacity_mw

/-- `op_power_mw = min(available_power_mw, electrolyzer_capacity_mw)`
(energy_8760.py line 102). -/
def opPowerMW (config : Energy8760Config) (renewable_output : Option (List ℚ))
    (hour : ℕ) : ℚ :=
  min (availablePowerMW config renewable_output hour) config.electrolyzer_capacity_mw

/-- One hour's operating flag: the availability draw succeeds and the hour's
price is at or below the threshold (energy_8760.py lines 89, 100, 117). -/
def hourOperating (config : Energy8760Config) (electricity_prices : List ℚ)
    (draw : ℕ → ℕ → ℚ) (year hour : ℕ) : Bool :=
  availabilityMask config draw year hour &&
    decide (electricity_prices.getD hour 0 ≤ config.price_threshold)

/-- One hour's hydrogen production
`h2_kg = (op_power_kw * effective_efficiency) / specific_consumption`,
zero when the hour does not dispatch (energy_8760.py lines 89-113). -/
def hourH2 (config : Energy8760Config) (electricity_prices : List ℚ)
    (renewable_output : Option (List ℚ)) (year : ℕ) (draw : ℕ → ℕ → ℚ)
    (hour : ℕ) : ℚ :=
  if availabilityMask config draw year hour then
    if electricity_prices.getD hour 0 ≤ config.price_threshold then
      opPowerMW config renewable_output hour * 1000 * effectiveEfficiency config year /
        config.specific_consumption
    else 0
  else 0

/-- One hour's operating power in MW, zero when the hour does not dispatch
(energy_8760.py lines 89-114). -/
def hourOperatingPower (config : Energy8760Config) (electricity_prices : List ℚ)
    (renewable_output : Option (List ℚ)) (year : ℕ) (draw : ℕ → ℕ → ℚ)
    (hour : ℕ) : ℚ :=
  if availabilityMask config draw year hour then
    if electricity_prices.getD hour 0 ≤ config.price_threshold then
      opPowerMW config renewable_output hour
    else 0
  else 0

/-- One hour's revenue `h2_kg * h2_price`, zero when the hour does not
dispatch (energy_8760.py lines 89-115). -/
def hourRevenue (config : Energy8760Config) (electricity_prices : List ℚ)
    (renewable_output : Option (List ℚ)) (h2_price : ℚ) (year : ℕ)
    (draw : ℕ → ℕ → ℚ) (hour : ℕ) : ℚ :=
  if availabilityMask config draw year hour then
    if electricity_prices.getD hour 0 ≤ config.price_threshold then
      hourH2 config electricity_prices renewable_output year draw hour * h2_price
    else 0
  else 0

/-- One hour's electricity cost `op_power_kw * electricity_prices[hour]`,
zero when the hour does not dispatch (energy_8760.py lines 89-116). -/
def hourCost (config : Energy8760Config) (electricity_prices : List ℚ)
    (renewable_output : Option (List ℚ)) (year : ℕ) (draw : ℕ → ℕ → ℚ)
    (hour : ℕ) : ℚ :=
  if availabilityMask config draw year hour then
    if electricity_prices.getD hour 0 ≤ config.price_threshold then
      opPowerMW config renewable_output hour * 1000 * electricity_prices.getD hour 0
    else 0
  else 0

/-- `total_h2 = np.sum(h2_production)` (energy_8760.py line 120). -/
def totalH2Production (config : Energy8760Config) (electricity_prices : List ℚ)
    (renewable_output : Option (List ℚ)) (year : ℕ) (draw : ℕ → ℕ → ℚ) : ℚ :=
  ∑ hour ∈ Finset.range 8760,
    hourH2 config electricity_prices renewable_output year draw hour

/-- `total_hours = np.sum(operating_hours)` (energy_8760.py line 121). -/
def totalOperatingHours (config : Energy8760Config) (electricity_prices : List ℚ)
    (draw : ℕ → ℕ → ℚ) (year : ℕ) : ℕ :=
  ((Finset.range 8760).filter
    (fun hour => hourOperating config electricity_prices draw year hour = true)).card

/-- `Energy8760Result` (energy_8760.py lines 23-34); the hourly arrays are
embedded as functions of the hour index. -/
structure Energy8760Result where
  h2_production : ℕ → ℚ
  operating_power : ℕ → ℚ
  hourly_revenue : ℕ → ℚ
  hourly_cost : ℕ → ℚ
  operating_hours : ℕ → Bool
  total_h2_production : ℚ
  total_operating_hours : ℕ
  capacity_factor : ℚ

/-- The result record built by `calculate_8760` once validation has passed
(energy_8760.py lines 65-133). -/
def calc8760Result (config : Energy8760Config) (electricity_prices : List ℚ)
    (renewable_output : Option (List ℚ)) (h2_price : ℚ) (year : ℕ)
    (draw : ℕ → ℕ → ℚ) : Energy8760Result where
  h2_production := hourH2 config electricity_prices renewable_output year draw
  operating_power := hourOperatingPower config electricity_prices renewable_output year draw
  hourly_revenue := hourRevenue config electricity_prices renewable_output h2_price year draw
  hourly_cost := hourCost config electricity_prices renewable_output year draw
  operating_hours := hourOperating config electricity_prices draw year
  total_h2_production := totalH2Production config electricity_prices renewable_output year draw
  total_operating_hours := totalOperatingHours config electricity_prices draw year
  capacity_factor := (totalOperatingHours config electricity_prices draw year : ℚ) / 8760 * 100

/-- `calculate_8760` (energy_8760.py lines 37-133): validates the series
lengths, then performs the hourly computation. -/
def calculate_8760 (config : Energy8760Config) (electricity_prices : List ℚ)
    (renewable_output : Option (List ℚ)) (h2_price : ℚ) (year : ℕ)
    (draw : ℕ → ℕ → ℚ) : Except String Energy8760Result :=
  if electricity_prices.length ≠ 8760 then
    .error "electricity_prices must have 8760 values"
  else if (match renewable_output with
           | some ro => ro.length != 8760
           | none => false) then
    .error "renewable_output must have 8760 values"
  else
    .ok (calc8760Result config electricity_prices renewable_output h2_price year draw)

/-- One row of `aggregate_yearly_results` (energy_8760.py lines 169-180). -/
structure YearlySummary where
  year : ℕ
  h2_production_kg : ℚ
  h2_production_ton : ℚ
  total_revenue : ℚ
  total_electricity_cost : ℚ
  net_revenue : ℚ
  operating_hours : ℕ
  capacity_factor : ℚ
deriving Inhabited

/-- Hydrogen price escalated into operating year `year`
(energy_8760.py line 160). -/
def escalatedH2Price (h2_price h2_price_escalation : ℚ) (year : ℕ) : ℚ :=
  h2_price * (1 + h2_price_escalation / 100) ^ (year - 1)

/-- `np.sum(result.hourly_revenue)` for one operating year at the escalated
hydrogen price (energy_8760.py line 174). -/
def yearlyTotalRevenue (config : Energy8760Config) (electricity_prices : List ℚ)
    (h2_price h2_price_escalation : ℚ) (draw : ℕ → ℕ → ℚ) (year : ℕ) : ℚ :=
  ∑ hour ∈ Finset.range 8760,
    hourRevenue config electricity_prices none
      (escalatedH2Price h2_price h2_price_escalation year) year draw hour

/-- `np.sum(result.hourly_cost)` for one operating year
(energy_8760.py line 175). -/
def yearlyElectricityCost (config : Energy8760Config) (electricity_prices : List ℚ)
    (draw : ℕ → ℕ → ℚ) (year : ℕ) : ℚ :=
  ∑ hour ∈ Finset.range 8760, hourCost config electricity_prices none year draw hour

/-- The summary row of one operating year: the aggregates of
`calculate_8760` at the escalated hydrogen price (energy_8760.py
lines 158-180; the yearly rerun passes no renewable series). -/
def yearlySummaryOf (config : Energy8760Config) (electricity_prices : List ℚ)
    (h2_price h2_price_escalation : ℚ) (draw : ℕ → ℕ → ℚ) (year : ℕ) :
    YearlySummary where
  year := year
  h2_production_kg := totalH2Production config electricity_prices none year draw
  h2_production_ton := totalH2Production config electricity_prices none year draw / 1000
  total_revenue := yearlyTotalRevenue config electricity_prices h2_price
    h2_price_escalation draw year
  total_electricity_cost := yearlyElectricityCost config electricity_prices draw year
  net_revenue := yearlyTotalRevenue config electricity_prices h2_price
      h2_price_escalation draw year -
    yearlyElectricityCost config electricity_prices draw year
  operating_hours := totalOperatingHours config electricity_prices draw year
  capacity_factor := (totalOperatingHours config electricity_prices draw year : ℚ) / 8760 * 100

/-- The list built by `aggregate_yearly_results`'s year loop for years
`1, …, project_lifetime` (energy_8760.py lines 156-180). -/
def aggregateYearlyList (config : Energy8760Config) (electricity_prices : List ℚ)
    (h2_price : ℚ) (project_lifetime : ℕ) (h2_price_escalation : ℚ)
    (draw : ℕ → ℕ → ℚ) : List YearlySummary :=
  (List.range project_lifetime).map
    (fun i => yearlySummaryOf config electricity_prices h2_price h2_price_escalation draw (i + 1))

/-- `aggregate_yearly_results` (energy_8760.py lines 136-182): every yearly
call of `calculate_8760` validates the same price series, so an invalid
series fails on the first call and a valid one never fails. -/
def aggregate_yearly_results (config : Energy8760Config) (electricity_prices : List ℚ)
    (h2_price : ℚ) (project_lifetime : ℕ) (h2_price_escalation : ℚ)
    (draw : ℕ → ℕ → ℚ) : Except String (List YearlySummary) :=
  if electricity_prices.length ≠ 8760 then
    .error "electricity_prices must have 8760 values"
  else
    .ok (aggregateYearlyList config electricity_prices h2_price project_lifetime
      h2_price_escalation draw)

/-! ### Basic facts about the hourly dispatch -/

/-- `List.getD` at the list's own element value. -/
theorem getD_replicate_self {α : Type} (n : ℕ) (a : α) (i : ℕ) :
    (List.replicate n a).getD i a = a := by
  induction n generalizing i with
  | zero => rfl
  | succ n ih =>
    rw [List.replicate_succ]
    cases i with
    | zero => rfl
    | succ i => rw [List.getD_cons_succ]; exact ih i

/-- Hourly production factored through the hourly operating power. -/
theorem hourH2_factored (config : Energy8760Config) (electricity_prices : List ℚ)
    (renewable_output : Option (List ℚ)) (year : ℕ) (draw : ℕ → ℕ → ℚ) (hour : ℕ) :
    hourH2 config electricity_prices renewable_output year draw hour =
      hourOperatingPower config electricity_prices renewable_output year draw hour *
        1000 * effectiveEfficiency config year / config.specific_consumption := by
  unfold hourH2 hourOperatingPower
  split
  · split
    · rfl
    · simp
  · simp

/-- Total yearly production factored as (dispatched power sum) × (yearly
efficiency term). -/
theorem totalH2_factored (config : Energy8760Config) (electricity_prices : List ℚ)
    (renewable_output : Option (List ℚ)) (year : ℕ) (draw : ℕ → ℕ → ℚ) :
    totalH2Production config electricity_prices renewable_output year draw =
      (∑ hour ∈ Finset.range 8760,
        hourOperatingPower config electricity_prices renewable_output year draw hour) *
        1000 * effectiveEfficiency config year / config.specific_consumption := by
  unfold totalH2Production
  rw [Finset.sum_congr rfl (fun hour _ => hourH2_factored config electricity_prices
    renewable_output year draw hour)]
  rw [← Finset.sum_div, ← Finset.sum_mul, ← Finset.sum_mul]

/-- The hourly operating power only depends on the year through the
availability draws. -/
theorem hourOperatingPower_draw_congr (config : Energy8760Config)
    (electricity_prices : List ℚ) (renewable_output : Option (List ℚ))
    (y1 y2 : ℕ) (draw : ℕ → ℕ → ℚ) (hdraw : ∀ h : ℕ, draw y1 h = draw y2 h) (hour : ℕ) :
    hourOperatingPower config electricity_prices renewable_output y1 draw hour =
      hourOperatingPower config electricity_prices renewable_output y2 draw hour := by
  unfold hourOperatingPower availabilityMask
  rw [hdraw hour]

/-- Without a renewable series, each hour dispatches at most the (nonnegative)
rated capacity and at least zero. -/
theorem hourOperatingPower_nonneg (config : Energy8760Config)
    (electricity_prices : List ℚ) (year : ℕ) (draw : ℕ → ℕ → ℚ) (hour : ℕ)
    (hcap : 0 ≤ config.electrolyzer_capacity_mw) :
    0 ≤ hourOperatingPower config electricity_prices none year draw hour := by
  unfold hourOperatingPower opPowerMW availablePowerMW
  split
  · split
    · simpa using hcap
    · exact le_refl 0
  · exact le_refl 0

/-- With `0 ≤ degradation_rate ≤ 100` the effective efficiency is
non-increasing from one operating year to the next, and constant when the
degradation rate is zero. -/
theorem effectiveEfficiency_antitone (config : Energy8760Config) (y : ℕ)
    (hy : 1 ≤ y) (hr0 : 0 ≤ config.degradation_rate)
    (hr100 : config.degradation_rate ≤ 100)
    (heff : 0 ≤ config.electrolyzer_efficiency) :
    effectiveEfficiency config (y + 1) ≤ effectiveEfficiency config y := by
  unfold effectiveEfficiency degradationFactor
  have hf0 : 0 ≤ 1 - config.degradation_rate / 100 := by linarith
  have hf1 : 1 - config.degradation_rate / 100 ≤ 1 := by linarith
  have hpow : (1 - config.degradation_rate / 100) ^ (y + 1 - 1) ≤
      (1 - config.degradation_rate / 100) ^ (y - 1) :=
    pow_le_pow_of_le_one hf0 hf1 (by omega)
  have := mul_le_mul_of_nonneg_left hpow heff
  linarith

/-- The total production of two years with the same availability draws,
compared: the later year produces no more, and exactly the same when the
degradation rate is zero. -/
theorem totalH2_year_succ_le (config : Energy8760Config) (electricity_prices : List ℚ)
    (draw : ℕ → ℕ → ℚ) (y : ℕ) (hy : 1 ≤ y)
    (hdraw : ∀ h : ℕ, draw (y + 1) h = draw y h)
    (hr0 : 0 ≤ config.degradation_rate) (hr100 : config.degradation_rate ≤ 100)
    (heff : 0 ≤ config.electrolyzer_efficiency)
    (hspec : 0 ≤ config.specific_consumption)
    (hcap : 0 ≤ config.electrolyzer_capacity_mw) :
    totalH2Production config electricity_prices none (y + 1) draw ≤
      totalH2Production config electricity_prices none y draw ∧
    (config.degradation_rate = 0 →
      totalH2Production config electricity_prices none (y + 1) draw =
        totalH2Production config electricity_prices none y draw) := by
  have hsum : (∑ hour ∈ Finset.range 8760,
      hourOperatingPower config electricity_prices none (y + 1) draw hour) =
      ∑ hour ∈ Finset.range 8760,
        hourOperatingPower config electricity_prices none y draw hour :=
    Finset.sum_congr rfl (fun hour _ =>
      hourOperatingPower_draw_congr config electricity_prices none (y + 1) y draw hdraw hour)
  have hS : 0 ≤ ∑ hour ∈ Finset.range 8760,
      hourOperatingPower config electricity_prices none y draw hour :=
    Finset.sum_nonneg (fun hour _ =>
      hourOperatingPower_nonneg config electricity_prices y draw hour hcap)
  constructor
  · rw [totalH2_factored, totalH2_factored, hsum]
    exact div_le_div_of_nonneg_right
      (mul_le_mul_of_nonneg_left
        (effectiveEfficiency_antitone config y hy hr0 hr100 heff)
        (mul_nonneg hS (by norm_num))) hspec
  · intro h0
    rw [totalH2_factored, totalH2_factored, hsum]
    unfold effectiveEfficiency degradationFactor
    rw [h0]
    norm_num

/-- The production column of one summary row. -/
theorem yearlySummaryOf_h2 (config : Energy8760Config) (electricity_prices : List ℚ)
    (h2_price h2_price_escalation : ℚ) (draw : ℕ → ℕ → ℚ) (year : ℕ) :
    (yearlySummaryOf config electricity_prices h2_price h2_price_escalation draw
      year).h2_production_kg =
      totalH2Production config electricity_prices none year draw := by
  simp only [yearlySummaryOf]

/-- The membership of `aggregate_yearly_results`' output list: row `i`
(0-based) holds the aggregates of operating year `i + 1`. -/
theorem aggregate_ok_getD (config : Energy8760Config) (electricity_prices : List ℚ)
    (h2_price : ℚ) (project_lifetime : ℕ) (h2_price_escalation : ℚ)
    (draw : ℕ → ℕ → ℚ) (out : List YearlySummary)
    (hagg : aggregate_yearly_results config electricity_prices h2_price project_lifetime
      h2_price_escalation draw = .ok out)
    (i : ℕ) (hi : i < out.length) :
    out.getD i default = yearlySummaryOf config electricity_prices h2_price
      h2_price_escalation draw (i + 1) := by
  unfold aggregate_yearly_results at hagg
  split at hagg
  · exact absurd hagg (by simp)
  · have hout : out = aggregateYearlyList config electricity_prices h2_price
        project_lifetime h2_price_escalation draw := by
      simpa using hagg.symm
    subst hout
    rw [List.getD_eq_getElem _ _ hi]
    have hi' : i < project_lifetime := by
      simpa [aggregateYearlyList] using hi
    simp only [aggregateYearlyList, List.getElem_map, List.getElem_range]

/-- C1 (amended): in the multi-year aggregation with one fixed price series,
the annual hydrogen production of consecutive operating years is
non-increasing — and exactly constant when `degradation_rate = 0` — PROVIDED
the per-year availability draws coincide for the two years (the source seeds
a fresh `RandomState(42 + year)` per year, so this is an extra hypothesis and
not automatic; `C1_counterexample` shows the claim fails without it). -/
theorem C1_theorem (config : Energy8760Config) (electricity_prices : List ℚ)
    (h2_price : ℚ) (project_lifetime : ℕ) (h2_price_escalation : ℚ)
    (draw : ℕ → ℕ → ℚ) (out : List YearlySummary) (i : ℕ)
    (hagg : aggregate_yearly_results config electricity_prices h2_price project_lifetime
      h2_price_escalation draw = .ok out)
    (hi : i + 1 < out.length)
    (hdraw : ∀ h : ℕ, draw (i + 2) h = draw (i + 1) h)
    (hr0 : 0 ≤ config.degradation_rate) (hr100 : config.degradation_rate ≤ 100)
    (heff : 0 ≤ config.electrolyzer_efficiency)
    (hspec : 0 ≤ config.specific_consumption)
    (hcap : 0 ≤ config.electrolyzer_capacity_mw) :
    (out.getD (i + 1) default).h2_production_kg ≤ (out.getD i default).h2_production_kg ∧
    (config.degradation_rate = 0 →
      (out.getD (i + 1) default).h2_production_kg = (out.getD i default).h2_production_kg) := by
  rw [aggregate_ok_getD config electricity_prices h2_price project_lifetime
      h2_price_escalation draw out hagg (i + 1) hi,
    aggregate_ok_getD config electricity_prices h2_price project_lifetime
      h2_price_escalation draw out hagg i (Nat.lt_of_succ_lt hi),
    yearlySummaryOf_h2, yearlySummaryOf_h2]
  have hmain := totalH2_year_succ_le config electricity_prices draw (i + 1)
    (Nat.le_add_left 1 i) hdraw hr0 hr100 heff hspec hcap
  exact ⟨hmain.1, fun h0 => hmain.2 h0⟩

/-- The configuration of the C1 counterexample: 1 MW, 100 % efficiency,
1 kWh/kg, 10 %/yr degradation, 50 % availability, threshold 0 (prices are 0,
so the price test always passes). -/
def c1Config : Energy8760Config :=
  { electrolyzer_capacity_mw := 1
    electrolyzer_efficiency := 100
    specific_consumption := 1
    degradation_rate := 10
    annual_availability := 50
    price_threshold := 0 }

/-- A draw stream for which year 1's availability draws all fail while
year 2's all succeed. -/
def c1Draw : ℕ → ℕ → ℚ := fun year _ => if year = 1 then 1 else 0

/-- C1 as stated is false on the code: with `degradation_rate = 10 > 0` and
the identical price signal in every year, a draw stream exists (the mask is
re-drawn from a fresh per-year generator) for which year 2 produces strictly
more hydrogen than year 1. -/
theorem C1_counterexample :
    0 < c1Config.degradation_rate ∧
    ∃ out, aggregate_yearly_results c1Config (List.replicate 8760 0) 6000 2 0 c1Draw
        = .ok out ∧
      (out.getD 0 default).h2_production_kg < (out.getD 1 default).h2_production_kg := by
  refine ⟨by norm_num [c1Config],
    aggregateYearlyList c1Config (List.replicate 8760 0) 6000 2 0 c1Draw, ?_, ?_⟩
  · unfold aggregate_yearly_results
    rw [if_neg (by rw [List.length_replicate]; omega)]
  · have hlist : aggregateYearlyList c1Config (List.replicate 8760 0) 6000 2 0 c1Draw =
        [yearlySummaryOf c1Config (List.replicate 8760 0) 6000 0 c1Draw 1,
         yearlySummaryOf c1Config (List.replicate 8760 0) 6000 0 c1Draw 2] := by
      rw [aggregateYearlyList]
      rw [show List.range 2 = [0, 1] from rfl]
      rfl
    rw [hlist]
    have hmask1 : ∀ hour : ℕ, availabilityMask c1Config c1Draw 1 hour = false := by
      intro hour
      rw [availabilityMask, decide_eq_false_iff_not,
        show c1Draw 1 hour = 1 from rfl,
        show c1Config.annual_availability = 50 from rfl]
      norm_num
    have hmask2 : ∀ hour : ℕ, availabilityMask c1Config c1Draw 2 hour = true := by
      intro hour
      rw [availabilityMask, decide_eq_true_eq,
        show c1Draw 2 hour = 0 from rfl,
        show c1Config.annual_availability = 50 from rfl]
      norm_num
    have h1 : totalH2Production c1Config (List.replicate 8760 0) none 1 c1Draw = 0 := by
      apply Finset.sum_eq_zero
      intro hour _
      rw [hourH2, hmask1]
      rfl
    have h2 : totalH2Production c1Config (List.replicate 8760 0) none 2 c1Draw = 7884000 := by
      unfold totalH2Production
      have hconst : ∀ hour ∈ Finset.range 8760,
          hourH2 c1Config (List.replicate 8760 0) none 2 c1Draw hour = (900 : ℚ) := by
        intro hour _
        have hpr : (List.replicate 8760 (0:ℚ)).getD hour 0 ≤ c1Config.price_threshold := by
          rw [getD_replicate_self, show c1Config.price_threshold = 0 from rfl]
        have hop : opPowerMW c1Config none hour = 1 := by
          rw [opPowerMW, show availablePowerMW c1Config none hour = 1 from rfl,
            show c1Config.electrolyzer_capacity_mw = 1 from rfl]
          norm_num
        have heff2 : effectiveEfficiency c1Config 2 = 9 / 10 := by
          rw [effectiveEfficiency, degradationFactor,
            show c1Config.electrolyzer_efficiency = 100 from rfl,
            show c1Config.degradation_rate = 10 from rfl]
          norm_num
        rw [hourH2, hmask2, if_pos rfl, if_pos hpr, hop, heff2,
          show c1Config.specific_consumption = 1 from rfl]
        norm_num
      rw [Finset.sum_congr rfl hconst, Finset.sum_const, Finset.card_range]
      norm_num
    simp only [yearlySummaryOf, List.getD_cons_zero, List.getD_cons_succ]
    rw [h1, h2]
    norm_num

/-- C1's amended theorem instantiated at the counterexample configuration
with a draw stream that is constant across years. -/
theorem C1_witness :
    ((aggregateYearlyList c1Config (List.replicate 8760 0) 6000 2 0
        (fun _ _ => 0)).getD 1 default).h2_production_kg ≤
      ((aggregateYearlyList c1Config (List.replicate 8760 0) 6000 2 0
        (fun _ _ => 0)).getD 0 default).h2_production_kg ∧
    (c1Config.degradation_rate = 0 →
      ((aggregateYearlyList c1Config (List.replicate 8760 0) 6000 2 0
        (fun _ _ => 0)).getD 1 default).h2_production_kg =
      ((aggregateYearlyList c1Config (List.replicate 8760 0) 6000 2 0
        (fun _ _ => 0)).getD 0 default).h2_production_kg) :=
  C1_theorem c1Config (List.replicate 8760 0) 6000 2 0 (fun _ _ => 0) _ 0
    (by
      unfold aggregate_yearly_results
      rw [if_neg (by rw [List.length_replicate]; omega)])
    (by simp only [aggregateYearlyList, List.length_map, List.length_range]; omega)
    (fun _ => rfl)
    (by norm_num [c1Config]) (by norm_num [c1Config]) (by norm_num [c1Config])
    (by norm_num [c1Config]) (by norm_num [c1Config])

/-- C4: whenever `calculate_8760` accepts its inputs, the dispatch result
has at most 8760 operating hours; every non-dispatched hour carries zero
production and zero cost; and an hour dispatches exactly when its
availability draw succeeds and its price is at or below the threshold. -/
theorem C4_theorem (config : Energy8760Config) (electricity_prices : List ℚ)
    (renewable_output : Option (List ℚ)) (h2_price : ℚ) (year : ℕ)
    (draw : ℕ → ℕ → ℚ) (r : Energy8760Result)
    (hok : calculate_8760 config electricity_prices renewable_output h2_price year draw
      = .ok r) :
    r.total_operating_hours ≤ 8760 ∧
    (∀ hour : ℕ, r.operating_hours hour = false →
      r.h2_production hour = 0 ∧ r.hourly_cost hour = 0) ∧
    (∀ hour : ℕ, r.operating_hours hour = true ↔
      (draw year hour < config.annual_availability / 100 ∧
        electricity_prices.getD hour 0 ≤ config.price_threshold)) := by
  unfold calculate_8760 at hok
  split at hok
  · exact absurd hok (by simp)
  · split at hok
    · exact absurd hok (by simp)
    · have hr : r = calc8760Result config electricity_prices renewable_output h2_price
          year draw := by
        simpa using hok.symm
      subst hr
      refine ⟨?_, ?_, ?_⟩
      · show totalOperatingHours config electricity_prices draw year ≤ 8760
        calc totalOperatingHours config electricity_prices draw year
            ≤ (Finset.range 8760).card := Finset.card_filter_le _ _
          _ = 8760 := Finset.card_range 8760
      · intro hour hoff
        have hoff' : hourOperating config electricity_prices draw year hour = false := hoff
        cases hm : availabilityMask config draw year hour with
        | false =>
          constructor
          · show hourH2 config electricity_prices renewable_output year draw hour = 0
            rw [hourH2, hm]
            rfl
          · show hourCost config electricity_prices renewable_output year draw hour = 0
            rw [hourCost, hm]
            rfl
        | true =>
          have hp : decide (electricity_prices.getD hour 0 ≤ config.price_threshold)
              = false := by
            rw [hourOperating, hm, Bool.true_and] at hoff'
            exact hoff'
          have hp' : ¬ electricity_prices.getD hour 0 ≤ config.price_threshold :=
            of_decide_eq_false hp
          constructor
          · show hourH2 config electricity_prices renewable_output year draw hour = 0
            rw [hourH2, hm, if_pos rfl, if_neg hp']
          · show hourCost config electricity_prices renewable_output year draw hour = 0
            rw [hourCost, hm, if_pos rfl, if_neg hp']
      · intro hour
        show hourOperating config electricity_prices draw year hour = true ↔ _
        rw [hourOperating, Bool.and_eq_true, availabilityMask, decide_eq_true_eq,
          decide_eq_true_eq]

/-- C4's theorem instantiated at a concrete grid-powered configuration and a
constant 8760-hour price series. -/
theorem C4_witness :
    (calc8760Result ⟨10, 67, 50, 1/2, 85, 120⟩ (List.replicate 8760 100) none 6000 1
        (fun _ _ => 0)).total_operating_hours ≤ 8760 ∧
    (∀ hour : ℕ, (calc8760Result ⟨10, 67, 50, 1/2, 85, 120⟩ (List.replicate 8760 100) none
        6000 1 (fun _ _ => 0)).operating_hours hour = false →
      (calc8760Result ⟨10, 67, 50, 1/2, 85, 120⟩ (List.replicate 8760 100) none 6000 1
        (fun _ _ => 0)).h2_production hour = 0 ∧
      (calc8760Result ⟨10, 67, 50, 1/2, 85, 120⟩ (List.replicate 8760 100) none 6000 1
        (fun _ _ => 0)).hourly_cost hour = 0) ∧
    (∀ hour : ℕ, (calc8760Result ⟨10, 67, 50, 1/2, 85, 120⟩ (List.replicate 8760 100) none
        6000 1 (fun _ _ => 0)).operating_hours hour = true ↔
      ((0:ℚ) < (85:ℚ) / 100 ∧
        (List.replicate 8760 (100:ℚ)).getD hour 0 ≤ (120:ℚ))) :=
  C4_theorem ⟨10, 67, 50, 1/2, 85, 120⟩ (List.replicate 8760 100) none 6000 1
    (fun _ _ => 0) _
    (by
      unfold calculate_8760
      rw [if_neg (by rw [List.length_replicate]; omega)]
      rfl)

/-! ## `financial.py` / `monte_carlo.py` — NPV and the IRR root-finder

The root-finder is written once over an arbitrary linear ordered field: the
financial model instantiates it at `ℝ`, the concrete claim evaluations at
`ℚ`.  `enumerate(cashflows)` pairs each cash flow with its 0-based period. -/

/-- `sum(cf / ((1 + rate) ** t) for t, cf in enumerate(cashflows))`
(financial.py line 1165, monte_carlo.py lines 296-299). -/
def npvAt {K : Type} [LinearOrderedField K] (cashflows : List K) (rate : K) : K :=
  (cashflows.enum.map (fun p => p.2 / (1 + rate) ^ p.1)).sum

/-- The NPV derivative in `rate`:
`sum(-t * cf / ((1 + rate) ** (t + 1)) for t, cf in enumerate(cashflows) if t > 0)`
(financial.py lines 1167-1169). -/
def npvDerivAt {K : Type} [LinearOrderedField K] (cashflows : List K) (rate : K) : K :=
  ((cashflows.enum.filter (fun p => 0 < p.1)).map
    (fun p => -(p.1 : K) * p.2 / (1 + rate) ^ (p.1 + 1))).sum

/-- The Newton-Raphson loop of `_irr_newton_raphson` (financial.py
lines 1163-1195); `fuel` is the number of remaining iterations, and running
out of fuel lands on the post-loop range check of lines 1193-1195, exactly
like the derivative-underflow `break` of line 1172.  The loop body's
`npv`, `npv_derivative` and `new_rate` locals are written out in place. -/
def irrNewtonAux {K : Type} [LinearOrderedField K] (cashflows : List K)
    (tolerance : K) : ℕ → K → Option K
  | 0, rate =>
    if -(99 / 100) ≤ rate ∧ rate ≤ 10 then some (rate * 100) else none
  | fuel + 1, rate =>
    if |npvDerivAt cashflows rate| < 1 / 10000000000 then
      (if -(99 / 100) ≤ rate ∧ rate ≤ 10 then some (rate * 100) else none)
    else if |rate - npvAt cashflows rate / npvDerivAt cashflows rate - rate| < tolerance then
      (if -(99 / 100) ≤ rate - npvAt cashflows rate / npvDerivAt cashflows rate ∧
          rate - npvAt cashflows rate / npvDerivAt cashflows rate ≤ 10 then
        some ((rate - npvAt cashflows rate / npvDerivAt cashflows rate) * 100)
      else none)
    else if rate - npvAt cashflows rate / npvDerivAt cashflows rate < -(99 / 100) ∨
        10 < rate - npvAt cashflows rate / npvDerivAt cashflows rate then none
    else irrNewtonAux cashflows tolerance fuel
      (rate - npvAt cashflows rate / npvDerivAt cashflows rate)

/-- Newton-Raphson exits through the derivative-underflow `break` and the
post-loop range check (financial.py lines 1171-1172, 1193-1195). -/
theorem irrNewtonAux_exit_underflow {K : Type} [LinearOrderedField K]
    (cashflows : List K) (tolerance : K) (fuel : ℕ) (rate : K)
    (hd : |npvDerivAt cashflows rate| < 1 / 10000000000)
    (hr : -(99 / 100) ≤ rate ∧ rate ≤ 10) :
    irrNewtonAux cashflows tolerance (fuel + 1) rate = some (rate * 100) := by
  rw [irrNewtonAux, if_pos hd, if_pos hr]

/-- Newton-Raphson exits through the step-size tolerance test
(financial.py lines 1176-1179). -/
theorem irrNewtonAux_exit_tolerance {K : Type} [LinearOrderedField K]
    (cashflows : List K) (tolerance : K) (fuel : ℕ) (rate : K)
    (hd : ¬ |npvDerivAt cashflows rate| < 1 / 10000000000)
    (ht : |rate - npvAt cashflows rate / npvDerivAt cashflows rate - rate| < tolerance)
    (hr : -(99 / 100) ≤ rate - npvAt cashflows rate / npvDerivAt cashflows rate ∧
      rate - npvAt cashflows rate / npvDerivAt cashflows rate ≤ 10) :
    irrNewtonAux cashflows tolerance (fuel + 1) rate =
      some ((rate - npvAt cashflows rate / npvDerivAt cashflows rate) * 100) := by
  rw [irrNewtonAux, if_neg hd, if_pos ht, if_pos hr]

/-- `_irr_newton_raphson` (financial.py lines 1157-1195): Newton-Raphson
from a 10 % initial guess. -/
def irrNewtonRaphson {K : Type} [LinearOrderedField K] (cashflows : List K)
    (max_iterations : ℕ := 1000) (tolerance : K := 1 / 1000000) : Option K :=
  irrNewtonAux cashflows tolerance max_iterations (1 / 10)

/-- The bisection loop of `_irr_bisection` (financial.py lines 1248-1265);
running out of fuel returns the midpoint, as the post-loop line 1265 does. -/
def irrBisectAux {K : Type} [LinearOrderedField K] (cashflows : List K)
    (tolerance : K) : ℕ → K → K → K → K → Option K
  | 0, low, high, _, _ => some ((low + high) / 2 * 100)
  | fuel + 1, low, high, npv_low, npv_high =>
    let mid := (low + high) / 2
    let npv_mid := npvAt cashflows mid
    if |npv_mid| < tolerance ∨ |high - low| < tolerance then some (mid * 100)
    else if npv_low * npv_mid < 0 then
      irrBisectAux cashflows tolerance fuel low mid npv_low npv_mid
    else
      irrBisectAux cashflows tolerance fuel mid high npv_mid npv_high

/-- `_irr_bisection` (financial.py lines 1198-1265): bisection over
`[-99 %, 500 %]`, widened to 1000 % when both endpoint NPVs are positive
(in exact arithmetic `npv_at_rate` never overflows, so the `except` clause
of lines 1224-1226 is unreachable). -/
def irrBisection {K : Type} [LinearOrderedField K] (cashflows : List K)
    (max_iterations : ℕ := 1000) (tolerance : K := 1 / 1000000)
    (low : K := -(99 / 100)) (high : K := 5) : Option K :=
  let npv_low := npvAt cashflows low
  let npv_high := npvAt cashflows high
  if npv_low * npv_high > 0 then
    if 0 < npv_low ∧ 0 < npv_high then
      let high2 : K := 10
      let npv_high2 := npvAt cashflows high2
      if npv_low * npv_high2 > 0 then none
      else irrBisectAux cashflows tolerance max_iterations low high2 npv_low npv_high2
    else none
  else irrBisectAux cashflows tolerance max_iterations low high npv_low npv_high

/-- The sign-change count of financial.py lines 1138-1141: the number of
consecutive pairs whose product is negative. -/
def signChanges {K : Type} [LinearOrderedField K] (cashflows : List K) : ℕ :=
  ((cashflows.zip cashflows.tail).filter (fun p => decide (p.1 * p.2 < 0))).length

/-- `_calculate_irr` (financial.py lines 1116-1154): `none` for fewer than
two cash flows or no sign change, else Newton-Raphson with bisection as the
fallback. -/
def calculateIrr {K : Type} [LinearOrderedField K] (cashflows : List K)
    (max_iterations : ℕ := 1000) (tolerance : K := 1 / 1000000) : Option K :=
  if cashflows.length < 2 then none
  else if signChanges cashflows = 0 then none
  else
    match irrNewtonRaphson cashflows max_iterations tolerance with
    | some irr => some irr
    | none => irrBisection cashflows max_iterations tolerance

/-- A sequence whose entries all have the same (weak) sign has no
sign change. -/
theorem signChanges_eq_zero_of_same_sign {K : Type} [LinearOrderedField K]
    (cashflows : List K)
    (h : (∀ x ∈ cashflows, 0 ≤ x) ∨ (∀ x ∈ cashflows, x ≤ 0)) :
    signChanges cashflows = 0 := by
  unfold signChanges
  rw [List.length_eq_zero]
  rw [List.filter_eq_nil_iff]
  intro p hp
  obtain ⟨h1, h2⟩ := List.of_mem_zip hp
  have h2' := List.mem_of_mem_tail h2
  simp only [decide_eq_true_eq]
  rcases h with hall | hall
  · exact not_lt.mpr (mul_nonneg (hall _ h1) (hall _ h2'))
  · exact not_lt.mpr (by nlinarith [hall _ h1, hall _ h2'])

/-- The NPV of `[-1000, 1100]` at the initial 10 % guess is exactly zero. -/
theorem npvAt_neg1000_1100 : npvAt ([-1000, 1100] : List ℚ) (1 / 10) = 0 := by
  rw [npvAt]
  norm_num [List.enum, List.enumFrom]

/-- The NPV derivative of `[-1000, 1100]` at the 10 % guess. -/
theorem npvDerivAt_neg1000_1100 :
    npvDerivAt ([-1000, 1100] : List ℚ) (1 / 10) = -(110000 / 121) := by
  rw [npvDerivAt]
  norm_num [List.enum, List.enumFrom, List.filter]

/-- `[-1000, 1100]` has exactly one sign change. -/
theorem signChanges_neg1000_1100 : signChanges ([-1000, 1100] : List ℚ) = 1 := by
  unfold signChanges
  rw [show ([-1000, 1100] : List ℚ).zip ([-1000, 1100] : List ℚ).tail
    = [((-1000 : ℚ), (1100 : ℚ))] from rfl]
  simp only [List.filter_cons, List.filter_nil]
  rw [decide_eq_true (show (-1000 : ℚ) * 1100 < 0 by norm_num), if_pos rfl]
  rfl

/-- C2 (amended): the no-solution and concrete-root parts of the claim.  A
cash-flow sequence with no sign change — in particular any all-same-sign
sequence — yields `none`, and `[-1000, 1100]` yields exactly 10 %.  (The
general "the returned rate zeroes the NPV within tolerance" part of the
claim is refuted by `C2_counterexample`.) -/
theorem C2_theorem {cashflows : List ℚ}
    (h : (∀ x ∈ cashflows, 0 ≤ x) ∨ (∀ x ∈ cashflows, x ≤ 0)) :
    calculateIrr cashflows = none ∧
    calculateIrr ([-1000, 1100] : List ℚ) = some 10 := by
  constructor
  · unfold calculateIrr
    rcases Nat.lt_or_ge cashflows.length 2 with hlen | hlen
    · rw [if_pos hlen]
    · rw [if_neg (Nat.not_lt.mpr hlen),
        if_pos (signChanges_eq_zero_of_same_sign cashflows h)]
  · have hd : ¬ |npvDerivAt ([-1000, 1100] : List ℚ) (1 / 10)| < 1 / 10000000000 := by
      rw [npvDerivAt_neg1000_1100, abs_neg,
        abs_of_nonneg (by norm_num : (0 : ℚ) ≤ 110000 / 121)]
      norm_num
    have ht : |1 / 10 - npvAt ([-1000, 1100] : List ℚ) (1 / 10) /
        npvDerivAt ([-1000, 1100] : List ℚ) (1 / 10) - 1 / 10| < (1 : ℚ) / 1000000 := by
      rw [npvAt_neg1000_1100, npvDerivAt_neg1000_1100]
      norm_num
    have hr : -(99 / 100) ≤ 1 / 10 - npvAt ([-1000, 1100] : List ℚ) (1 / 10) /
        npvDerivAt ([-1000, 1100] : List ℚ) (1 / 10) ∧
        1 / 10 - npvAt ([-1000, 1100] : List ℚ) (1 / 10) /
          npvDerivAt ([-1000, 1100] : List ℚ) (1 / 10) ≤ (10 : ℚ) := by
      rw [npvAt_neg1000_1100, npvDerivAt_neg1000_1100]
      norm_num
    have hnewton : irrNewtonRaphson ([-1000, 1100] : List ℚ) 1000 (1 / 1000000)
        = some 10 := by
      unfold irrNewtonRaphson
      rw [show (1000 : ℕ) = 999 + 1 from rfl]
      rw [irrNewtonAux_exit_tolerance _ _ _ _ hd ht hr]
      rw [npvAt_neg1000_1100, npvDerivAt_neg1000_1100]
      norm_num
    unfold calculateIrr
    rw [if_neg (by decide), if_neg (by rw [signChanges_neg1000_1100]; omega), hnewton]

/-- C2's theorem instantiated at the all-positive sequence `[5, 5]`. -/
theorem C2_witness :
    calculateIrr ([5, 5] : List ℚ) = none ∧
    calculateIrr ([-1000, 1100] : List ℚ) = some 10 :=
  C2_theorem (Or.inl (by
    intro x hx
    rcases List.mem_cons.mp hx with rfl | hx
    · norm_num
    · rcases List.mem_cons.mp hx with rfl | hx
      · norm_num
      · exact absurd hx (List.not_mem_nil x)))

/-- C2 as stated is false on the code: for the cash-flow sequence
`[1, -10⁻¹²]` (one genuine sign change), Newton-Raphson exits through the
derivative-underflow `break` and `_calculate_irr` returns 10 %, yet the NPV
of the sequence at 10 % is about 1 — far beyond the 10⁻⁶ tolerance — so the
returned rate does not zero the NPV within tolerance. -/
theorem C2_counterexample :
    calculateIrr ([1, -(1 / 1000000000000)] : List ℚ) = some 10 ∧
    1 / 1000000 < |npvAt ([1, -(1 / 1000000000000)] : List ℚ) (10 / 100)| := by
  have hnpv : npvAt ([1, -(1 / 1000000000000)] : List ℚ) (10 / 100)
      = 1099999999999 / 1100000000000 := by
    rw [npvAt]
    norm_num [List.enum, List.enumFrom]
  constructor
  · have hd : |npvDerivAt ([1, -(1 / 1000000000000)] : List ℚ) (1 / 10)|
        < 1 / 10000000000 := by
      have hval : npvDerivAt ([1, -(1 / 1000000000000)] : List ℚ) (1 / 10)
          = 1 / 1210000000000 := by
        rw [npvDerivAt]
        norm_num [List.enum, List.enumFrom, List.filter]
      rw [hval, abs_of_nonneg (by norm_num : (0 : ℚ) ≤ 1 / 1210000000000)]
      norm_num
    have hnewton : irrNewtonRaphson ([1, -(1 / 1000000000000)] : List ℚ) 1000
        (1 / 1000000) = some 10 := by
      unfold irrNewtonRaphson
      rw [show (1000 : ℕ) = 999 + 1 from rfl]
      rw [irrNewtonAux_exit_underflow _ _ _ _ hd (by norm_num)]
      norm_num
    have hsign : signChanges ([1, -(1 / 1000000000000)] : List ℚ) = 1 := by
      unfold signChanges
      rw [show ([1, -(1 / 1000000000000)] : List ℚ).zip
        ([1, -(1 / 1000000000000)] : List ℚ).tail
        = [((1 : ℚ), -(1 / 1000000000000))] from rfl]
      simp only [List.filter_cons, List.filter_nil]
      rw [decide_eq_true (show (1 : ℚ) * -(1 / 1000000000000) < 0 by norm_num),
        if_pos rfl]
      rfl
    unfold calculateIrr
    rw [if_neg (by decide), if_neg (by rw [hsign]; omega), hnewton]
  · rw [hnpv, abs_of_nonneg (by norm_num : (0 : ℚ) ≤ 1099999999999 / 1100000000000)]
    norm_num

/-! ## `monte_carlo.py` — percentile reporting

`np.percentile(a, p)` with the default linear interpolation: on the sorted
data `s` of length `n` it evaluates the piecewise-linear interpolant at the
virtual index `p * (n - 1) / 100`.  The Monte Carlo iteration loop feeds
`np.random`-perturbed reruns of the dispatch/cash-flow pipeline into the
distribution arrays; the reporting below is a function of those arrays. -/

/-- Linear interpolation of a sorted sample at a virtual index `idx`:
with `k = ⌊idx⌋` and `d = idx - k`, this is `s[k] + d * (s[k+1] - s[k])`,
clamped to the last element when `k` is the last position. -/
def interpAt (s : List ℚ) (idx : ℚ) : ℚ :=
  if (⌊idx⌋).toNat + 1 < s.length then
    s.getD (⌊idx⌋).toNat 0 +
      (idx - ((⌊idx⌋).toNat : ℚ)) *
        (s.getD ((⌊idx⌋).toNat + 1) 0 - s.getD (⌊idx⌋).toNat 0)
  else s.getD (s.length - 1) 0

/-- `np.percentile(data, p)` (linear interpolation, the numpy default used
by monte_carlo.py lines 263-281). -/
def npPercentile (data : List ℚ) (p : ℚ) : ℚ :=
  if data.mergeSort.length = 0 then 0
  else interpAt data.mergeSort (p * ((data.mergeSort.length : ℚ) - 1) / 100)

/-- The percentile block of `MonteCarloResult` (monte_carlo.py lines 32-54,
filled in at lines 259-281). -/
structure MonteCarloPercentileReport where
  npv_p50 : ℚ
  npv_p90 : ℚ
  npv_p99 : ℚ
  irr_p50 : ℚ
  irr_p90 : ℚ
  irr_p99 : ℚ
  var_95 : ℚ
  var_99 : ℚ
  npv_after_tax_p50 : ℚ
  npv_after_tax_p90 : ℚ
  npv_after_tax_p99 : ℚ
  equity_irr_p50 : ℚ
  equity_irr_p90 : ℚ
  equity_irr_p99 : ℚ

/-- The percentile reporting of `run_monte_carlo` (monte_carlo.py
lines 259-281): "P50" is the 50th percentile of the distribution array,
"P90" the lower-tail 10th, "P99" the lower-tail 1st (the conservative
finance convention), and VaR the 5th/1st. -/
def monteCarloReport (npv_dist irr_dist npv_after_tax_dist equity_irr_dist : List ℚ) :
    MonteCarloPercentileReport where
  npv_p50 := npPercentile npv_dist 50
  npv_p90 := npPercentile npv_dist 10
  npv_p99 := npPercentile npv_dist 1
  irr_p50 := npPercentile irr_dist 50
  irr_p90 := npPercentile irr_dist 10
  irr_p99 := npPercentile irr_dist 1
  var_95 := npPercentile npv_dist 5
  var_99 := npPercentile npv_dist 1
  npv_after_tax_p50 := npPercentile npv_after_tax_dist 50
  npv_after_tax_p90 := npPercentile npv_after_tax_dist 10
  npv_after_tax_p99 := npPercentile npv_after_tax_dist 1
  equity_irr_p50 := npPercentile equity_irr_dist 50
  equity_irr_p90 := npPercentile equity_irr_dist 10
  equity_irr_p99 := npPercentile equity_irr_dist 1

/-- Entries of a sorted list, read through `getD`, are monotone in the
index as long as the larger index is in bounds. -/
theorem sorted_getD_mono (s : List ℚ) (hs : s.Sorted (· ≤ ·)) {i j : ℕ}
    (hij : i ≤ j) (hj : j < s.length) : s.getD i 0 ≤ s.getD j 0 := by
  have hi : i < s.length := lt_of_le_of_lt hij hj
  rw [List.getD_eq_getElem _ _ hi, List.getD_eq_getElem _ _ hj]
  have := hs.rel_get_of_le (a := ⟨i, hi⟩) (b := ⟨j, hj⟩) (Fin.mk_le_mk.mpr hij)
  simpa using this

/-- The interpolant of a sorted sample is monotone in the virtual index on
`[0, n-1]`. -/
theorem interpAt_mono (s : List ℚ) (hs : s.Sorted (· ≤ ·)) (hn : 0 < s.length)
    {h1 h2 : ℚ} (h0 : 0 ≤ h1) (h12 : h1 ≤ h2) (hub : h2 ≤ (s.length : ℚ) - 1) :
    interpAt s h1 ≤ interpAt s h2 := by
  have h02 : 0 ≤ h2 := le_trans h0 h12
  have hf1 : (0 : ℤ) ≤ ⌊h1⌋ := Int.floor_nonneg.mpr h0
  have hf2 : (0 : ℤ) ≤ ⌊h2⌋ := Int.floor_nonneg.mpr h02
  have hc1 : ((⌊h1⌋.toNat : ℕ) : ℚ) = (⌊h1⌋ : ℚ) := by
    exact_mod_cast congrArg (fun z : ℤ => (z : ℚ)) (Int.toNat_of_nonneg hf1)
  have hc2 : ((⌊h2⌋.toNat : ℕ) : ℚ) = (⌊h2⌋ : ℚ) := by
    exact_mod_cast congrArg (fun z : ℤ => (z : ℚ)) (Int.toNat_of_nonneg hf2)
  have hle1 : ((⌊h1⌋.toNat : ℕ) : ℚ) ≤ h1 := by rw [hc1]; exact Int.floor_le h1
  have hlt1 : h1 < ((⌊h1⌋.toNat : ℕ) : ℚ) + 1 := by rw [hc1]; exact Int.lt_floor_add_one h1
  have hle2 : ((⌊h2⌋.toNat : ℕ) : ℚ) ≤ h2 := by rw [hc2]; exact Int.floor_le h2
  have hk2le : ⌊h2⌋ ≤ (s.length : ℤ) - 1 := by
    calc ⌊h2⌋ ≤ ⌊((s.length : ℚ) - 1)⌋ := Int.floor_le_floor hub
      _ = (s.length : ℤ) - 1 := by
          rw [show ((s.length : ℚ) - 1) = (((s.length : ℤ) - 1 : ℤ) : ℚ) by push_cast; ring,
            Int.floor_intCast]
  have hk2n : ⌊h2⌋.toNat ≤ s.length - 1 := by omega
  have hk12 : ⌊h1⌋.toNat ≤ ⌊h2⌋.toNat := by
    have := Int.floor_le_floor h12
    omega
  rcases Nat.lt_or_ge ⌊h1⌋.toNat ⌊h2⌋.toNat with hlt | hge
  · have hb1 : ⌊h1⌋.toNat + 1 < s.length := by omega
    have hk2lt : ⌊h2⌋.toNat < s.length := by omega
    have gap1 : s.getD ⌊h1⌋.toNat 0 ≤ s.getD (⌊h1⌋.toNat + 1) 0 :=
      sorted_getD_mono s hs (Nat.le_succ _) hb1
    have step1 : interpAt s h1 ≤ s.getD (⌊h1⌋.toNat + 1) 0 := by
      rw [interpAt, if_pos hb1]
      nlinarith [mul_nonneg (by linarith : (0:ℚ) ≤ 1 - (h1 - ((⌊h1⌋.toNat : ℕ) : ℚ)))
        (by linarith : (0:ℚ) ≤ s.getD (⌊h1⌋.toNat + 1) 0 - s.getD ⌊h1⌋.toNat 0)]
    have step2 : s.getD (⌊h1⌋.toNat + 1) 0 ≤ s.getD ⌊h2⌋.toNat 0 :=
      sorted_getD_mono s hs (by omega) hk2lt
    have step3 : s.getD ⌊h2⌋.toNat 0 ≤ interpAt s h2 := by
      rw [interpAt]
      split
      · rename_i hb2
        have gap2 : s.getD ⌊h2⌋.toNat 0 ≤ s.getD (⌊h2⌋.toNat + 1) 0 :=
          sorted_getD_mono s hs (Nat.le_succ _) hb2
        nlinarith [mul_nonneg (by linarith : (0:ℚ) ≤ h2 - ((⌊h2⌋.toNat : ℕ) : ℚ))
          (by linarith : (0:ℚ) ≤ s.getD (⌊h2⌋.toNat + 1) 0 - s.getD ⌊h2⌋.toNat 0)]
      · exact sorted_getD_mono s hs hk2n (by omega)
    exact le_trans (le_trans step1 step2) step3
  · have heq : ⌊h1⌋.toNat = ⌊h2⌋.toNat := le_antisymm hk12 hge
    rw [interpAt, interpAt, heq]
    split
    · rename_i hb
      have gap : s.getD ⌊h2⌋.toNat 0 ≤ s.getD (⌊h2⌋.toNat + 1) 0 :=
        sorted_getD_mono s hs (Nat.le_succ _) hb
      have hd : h1 - ((⌊h2⌋.toNat : ℕ) : ℚ) ≤ h2 - ((⌊h2⌋.toNat : ℕ) : ℚ) := by linarith
      nlinarith [mul_le_mul_of_nonneg_right hd (by linarith :
        (0:ℚ) ≤ s.getD (⌊h2⌋.toNat + 1) 0 - s.getD ⌊h2⌋.toNat 0)]
    · exact le_refl _

/-- Sortedness of `mergeSort` under the default comparison. -/
theorem mergeSort_sorted (data : List ℚ) : (data.mergeSort).Sorted (· ≤ ·) :=
  List.sorted_mergeSort' data

/-- `np.percentile` is monotone in the percentile, on any sample. -/
theorem npPercentile_mono (data : List ℚ) {p q : ℚ} (hp : 0 ≤ p) (hpq : p ≤ q)
    (hq : q ≤ 100) : npPercentile data p ≤ npPercentile data q := by
  unfold npPercentile
  split
  · exact le_refl 0
  · rename_i hlen
    have hn : 0 < data.mergeSort.length := Nat.pos_of_ne_zero hlen
    have hn1 : (1 : ℚ) ≤ (data.mergeSort.length : ℚ) := by exact_mod_cast hn
    have hnn : (0 : ℚ) ≤ (data.mergeSort.length : ℚ) - 1 := by linarith
    refine interpAt_mono _ (mergeSort_sorted data) hn ?_ ?_ ?_
    · exact div_nonneg (mul_nonneg hp hnn) (by norm_num)
    · exact div_le_div_of_nonneg_right (mul_le_mul_of_nonneg_right hpq hnn) (by norm_num)
    · rw [div_le_iff (by norm_num : (0:ℚ) < 100)]
      nlinarith [mul_le_mul_of_nonneg_right hq hnn]

/-- C3: the reported P50/P90/P99 are the lower-tail 50th/10th/1st
percentiles of the corresponding distribution array, so they are ordered
`npv_p50 ≥ npv_p90 ≥ npv_p99` (and likewise for the IRR trio) whenever the
distribution has more than one distinct value. -/
theorem C3_theorem (npv_dist irr_dist npv_after_tax_dist equity_irr_dist : List ℚ)
    (hnpv : ∃ a ∈ npv_dist, ∃ b ∈ npv_dist, a ≠ b)
    (hirr : ∃ a ∈ irr_dist, ∃ b ∈ irr_dist, a ≠ b) :
    ((monteCarloReport npv_dist irr_dist npv_after_tax_dist equity_irr_dist).npv_p99 ≤
      (monteCarloReport npv_dist irr_dist npv_after_tax_dist equity_irr_dist).npv_p90 ∧
     (monteCarloReport npv_dist irr_dist npv_after_tax_dist equity_irr_dist).npv_p90 ≤
      (monteCarloReport npv_dist irr_dist npv_after_tax_dist equity_irr_dist).npv_p50) ∧
    ((monteCarloReport npv_dist irr_dist npv_after_tax_dist equity_irr_dist).irr_p99 ≤
      (monteCarloReport npv_dist irr_dist npv_after_tax_dist equity_irr_dist).irr_p90 ∧
     (monteCarloReport npv_dist irr_dist npv_after_tax_dist equity_irr_dist).irr_p90 ≤
      (monteCarloReport npv_dist irr_dist npv_after_tax_dist equity_irr_dist).irr_p50) := by
  refine ⟨⟨?_, ?_⟩, ⟨?_, ?_⟩⟩ <;>
    simp only [monteCarloReport] <;>
    exact npPercentile_mono _ (by norm_num) (by norm_num) (by norm_num)

/-- C3's theorem instantiated at two-point distributions. -/
theorem C3_witness :
    ((monteCarloReport [0, 1] [0, 1] [] []).npv_p99 ≤
      (monteCarloReport [0, 1] [0, 1] [] []).npv_p90 ∧
     (monteCarloReport [0, 1] [0, 1] [] []).npv_p90 ≤
      (monteCarloReport [0, 1] [0, 1] [] []).npv_p50) ∧
    ((monteCarloReport [0, 1] [0, 1] [] []).irr_p99 ≤
      (monteCarloReport [0, 1] [0, 1] [] []).irr_p90 ∧
     (monteCarloReport [0, 1] [0, 1] [] []).irr_p90 ≤
      (monteCarloReport [0, 1] [0, 1] [] []).irr_p50) :=
  C3_theorem [0, 1] [0, 1] [] []
    ⟨0, by norm_num, 1, by norm_num, by norm_num⟩
    ⟨0, by norm_num, 1, by norm_num, by norm_num⟩

/-! ## `financial.py` — the project-finance model

Configuration records mirror the dataclasses; the computations that involve
non-integer exponents (interest during construction, declining-balance
depreciation rates) force the model into `ℝ`, so the cash-flow pipeline is
`ℝ`-valued with the `ℚ` configuration fields coerced in. -/

/-- `TaxConfig` (financial.py lines 29-39). -/
structure TaxConfig where
  corporate_tax_rate : ℚ
  local_tax_rate : ℚ
  depreciation_method : String
  electrolyzer_useful_life : ℤ
  building_useful_life : ℤ
  building_ratio : ℚ
  salvage_value_rate : ℚ

/-- The dataclass defaults of `TaxConfig`. -/
def defaultTaxConfig : TaxConfig :=
  { corporate_tax_rate := 22
    local_tax_rate := 22 / 10
    depreciation_method := "straight_line"
    electrolyzer_useful_life := 10
    building_useful_life := 40
    building_ratio := 10
    salvage_value_rate := 5 }

/-- `IncentivesConfig` (financial.py lines 42-63). -/
structure IncentivesConfig where
  itc_enabled : Bool
  itc_rate : ℚ
  ptc_enabled : Bool
  ptc_amount : ℚ
  ptc_duration : ℤ
  capex_subsidy : ℚ
  capex_subsidy_rate : ℚ
  operating_subsidy : ℚ
  operating_subsidy_duration : ℤ
  carbon_credit_enabled : Bool
  carbon_credit_price : ℚ
  clean_h2_certification_enabled : Bool
  clean_h2_premium : ℚ

/-- The dataclass defaults of `IncentivesConfig`. -/
def defaultIncentivesConfig : IncentivesConfig :=
  { itc_enabled := false
    itc_rate := 10
    ptc_enabled := false
    ptc_amount := 700
    ptc_duration := 10
    capex_subsidy := 0
    capex_subsidy_rate := 0
    operating_subsidy := 0
    operating_subsidy_duration := 5
    carbon_credit_enabled := false
    carbon_credit_price := 1000
    clean_h2_certification_enabled := false
    clean_h2_premium := 500 }

/-- `FinancialConfig` (financial.py lines 66-89). -/
structure FinancialConfig where
  capex : ℚ
  opex_ratio : ℚ
  stack_replacement_cost : ℚ
  stack_lifetime_hours : ℤ
  discount_rate : ℚ
  project_lifetime : ℤ
  debt_ratio : ℚ
  interest_rate : ℚ
  loan_tenor : ℤ
  construction_period : ℤ
  grace_period : ℤ
  tax_config : Option TaxConfig
  capex_schedule : Option (List ℚ)
  repayment_method : String
  working_capital_months : ℤ
  include_idc : Bool
  incentives_config : Option IncentivesConfig

/-- `config.tax_config if config.tax_config else TaxConfig()`
(financial.py line 839). -/
def taxConfigOf (config : FinancialConfig) : TaxConfig :=
  config.tax_config.getD defaultTaxConfig

/-- `config.incentives_config if config.incentives_config else
IncentivesConfig()` (financial.py line 842). -/
def incentivesOf (config : FinancialConfig) : IncentivesConfig :=
  config.incentives_config.getD defaultIncentivesConfig

/-- The normalized, length-adjusted CAPEX staging schedule of
`calculate_capex_schedule_with_idc` (financial.py lines 196-214): default
uniform split over the construction period, scaled to sum 1 when it does
not, padded with zeros when short, last stage absorbing the excess when
long.  Only meaningful for `0 < construction_period` (the caller returns
early otherwise). -/
def capexScheduleNormalized (construction_period : ℤ)
    (capex_schedule : Option (List ℚ)) : List ℚ :=
  let cp := construction_period.toNat
  let sched0 := match capex_schedule with
    | none => List.replicate cp ((1 : ℚ) / cp)
    | some s => if s.length = 0 then List.replicate cp ((1 : ℚ) / cp) else s
  let sched1 := if sched0.sum ≠ 1 then sched0.map (· / sched0.sum) else sched0
  if sched1.length < cp then sched1 ++ List.replicate (cp - sched1.length) 0
  else if cp < sched1.length then
    (sched1.take cp).dropLast ++ [(sched1.take cp).getLast?.getD 0 + (sched1.drop cp).sum]
  else sched1

/-- `yearly_capex = [capex * ratio for ratio in capex_schedule]`
(financial.py lines 193-217). -/
def yearlyCapexList (capex : ℚ) (construction_period : ℤ)
    (capex_schedule : Option (List ℚ)) : List ℚ :=
  if construction_period ≤ 0 then [capex]
  else (capexScheduleNormalized construction_period capex_schedule).map
    (fun ratio => capex * ratio)

/-- The interest during construction of `calculate_capex_schedule_with_idc`
(financial.py lines 219-235): each stage's debt portion compounds over the
remaining `construction_period - year_idx - 0.5` years.  The half-year
exponent is a real power. -/
noncomputable def idcAmountOf (capex : ℚ) (construction_period : ℤ)
    (capex_schedule : Option (List ℚ)) (debt_ratio interest_rate : ℚ)
    (include_idc : Bool) : ℝ :=
  if construction_period ≤ 0 then 0
  else if include_idc ∧ 0 < interest_rate then
    ∑ i ∈ Finset.range (yearlyCapexList capex construction_period capex_schedule).length,
      (if 0 < (construction_period : ℝ) - (i : ℝ) - 1 / 2 then
        (((yearlyCapexList capex construction_period capex_schedule).getD i 0 : ℚ) : ℝ) *
          ((debt_ratio : ℝ) / 100) *
          ((1 + (interest_rate : ℝ) / 100) ^ ((construction_period : ℝ) - (i : ℝ) - 1 / 2) - 1)
      else 0)
  else 0

/-- `total_capex_with_idc = capex + idc` (financial.py lines 193-194, 237). -/
noncomputable def totalCapexWithIdcOf (capex : ℚ) (construction_period : ℤ)
    (capex_schedule : Option (List ℚ)) (debt_ratio interest_rate : ℚ)
    (include_idc : Bool) : ℝ :=
  if construction_period ≤ 0 then (capex : ℝ)
  else (capex : ℝ) +
    idcAmountOf capex construction_period capex_schedule debt_ratio interest_rate include_idc

/-- `calculate_working_capital` (financial.py lines 313-333). -/
def calculate_working_capital (annual_opex : ℚ) (working_capital_months : ℤ) : ℚ :=
  if working_capital_months ≤ 0 then 0
  else annual_opex / 12 * working_capital_months

/-- `calculate_salvage_value` (financial.py lines 336-362): the nominal
salvage value and its present value. -/
def calculate_salvage_value (capex salvage_value_rate : ℚ) (project_lifetime : ℤ)
    (discount_rate : ℚ) : ℚ × ℚ :=
  let salvage_value := capex * (salvage_value_rate / 100)
  (salvage_value, salvage_value / (1 + discount_rate / 100) ^ project_lifetime)

/-- One row per project year of the equal-payment debt schedule
(financial.py lines 424-446), as `(debt service, interest, principal)`;
`fuel` counts the remaining project years. -/
noncomputable def debtRowsEqualPayment (r pmt : ℝ) (grace tenor : ℤ) :
    ℕ → ℤ → ℝ → List (ℝ × ℝ × ℝ)
  | 0, _, _ => []
  | n + 1, year, remaining_principal =>
    if year ≤ grace then
      (remaining_principal * r, remaining_principal * r, 0) ::
        debtRowsEqualPayment r pmt grace tenor n (year + 1) remaining_principal
    else if year ≤ tenor then
      (pmt, remaining_principal * r, pmt - remaining_principal * r) ::
        debtRowsEqualPayment r pmt grace tenor n (year + 1)
          (remaining_principal - (pmt - remaining_principal * r))
    else (0, 0, 0) :: debtRowsEqualPayment r pmt grace tenor n (year + 1) remaining_principal

/-- One row per project year of the equal-principal debt schedule
(financial.py lines 288-310). -/
noncomputable def debtRowsEqualPrincipal (r annual_principal : ℝ) (grace tenor : ℤ) :
    ℕ → ℤ → ℝ → List (ℝ × ℝ × ℝ)
  | 0, _, _ => []
  | n + 1, year, remaining_principal =>
    if year ≤ grace then
      (remaining_principal * r, remaining_principal * r, 0) ::
        debtRowsEqualPrincipal r annual_principal grace tenor n (year + 1) remaining_principal
    else if year ≤ tenor then
      (remaining_principal * r + annual_principal, remaining_principal * r, annual_principal) ::
        debtRowsEqualPrincipal r annual_principal grace tenor n (year + 1)
          (remaining_principal - annual_principal)
    else (0, 0, 0) ::
      debtRowsEqualPrincipal r annual_principal grace tenor n (year + 1) remaining_principal

/-- `calculate_debt_service_equal_principal` (financial.py lines 242-310). -/
noncomputable def calculate_debt_service_equal_principal (principal : ℝ)
    (interest_rate : ℚ) (tenor grace_period project_lifetime : ℤ) :
    List (ℝ × ℝ × ℝ) :=
  if principal ≤ 0 ∨ tenor ≤ 0 then List.replicate project_lifetime.toNat (0, 0, 0)
  else
    debtRowsEqualPrincipal ((interest_rate : ℝ) / 100)
      (if 0 < tenor - grace_period then principal / ((tenor - grace_period : ℤ) : ℝ) else 0)
      grace_period tenor project_lifetime.toNat 1 principal

/-- `calculate_debt_service_detailed` (financial.py lines 365-446): the
grace-period-aware schedule, equal-payment by default, equal-principal when
requested. -/
noncomputable def calculate_debt_service_detailed (principal : ℝ) (interest_rate : ℚ)
    (tenor grace_period project_lifetime : ℤ) (repayment_method : String) :
    List (ℝ × ℝ × ℝ) :=
  if repayment_method = "equal_principal" then
    calculate_debt_service_equal_principal principal interest_rate tenor grace_period
      project_lifetime
  else if principal ≤ 0 ∨ tenor ≤ 0 then List.replicate project_lifetime.toNat (0, 0, 0)
  else
    debtRowsEqualPayment ((interest_rate : ℝ) / 100)
      (if 0 < tenor - grace_period ∧ 0 < (interest_rate : ℝ) / 100 then
        principal * ((interest_rate : ℝ) / 100 *
            (1 + (interest_rate : ℝ) / 100) ^ (tenor - grace_period)) /
          ((1 + (interest_rate : ℝ) / 100) ^ (tenor - grace_period) - 1)
      else if 0 < tenor - grace_period then principal / ((tenor - grace_period : ℤ) : ℝ)
      else 0)
      grace_period tenor project_lifetime.toNat 1 principal

/-- One year of the declining-balance depreciation loop (financial.py
lines 506-525), carrying the two book values. -/
noncomputable def decliningRows (building_rate equipment_rate building_salvage
    equipment_salvage : ℝ) (building_life equipment_life : ℤ) :
    ℕ → ℤ → ℝ → ℝ → List ℝ
  | 0, _, _, _ => []
  | n + 1, year, building_book, equipment_book =>
    let building_dep := if year ≤ building_life ∧ building_salvage < building_book then
        min (building_book * building_rate) (building_book - building_salvage)
      else 0
    let equipment_dep := if year ≤ equipment_life ∧ equipment_salvage < equipment_book then
        min (equipment_book * equipment_rate) (equipment_book - equipment_salvage)
      else 0
    (building_dep + equipment_dep) ::
      decliningRows building_rate equipment_rate building_salvage equipment_salvage
        building_life equipment_life n (year + 1)
        (building_book - building_dep) (equipment_book - equipment_dep)

/-- `calculate_depreciation` (financial.py lines 449-541): building and
equipment fractions depreciated separately, straight-line or
declining-balance (rate `1 - salvage_rate ** (1/life)`, a real power). -/
noncomputable def calculate_depreciation (capex : ℚ) (tax_config : TaxConfig)
    (project_lifetime : ℤ) : List ℝ :=
  let building_capex := capex * (tax_config.building_ratio / 100)
  let equipment_capex := capex - building_capex
  let building_salvage := building_capex * (tax_config.salvage_value_rate / 100)
  let equipment_salvage := equipment_capex * (tax_config.salvage_value_rate / 100)
  if tax_config.depreciation_method = "declining_balance" then
    let salvage_rate : ℚ :=
      if tax_config.salvage_value_rate / 100 ≤ 0 then 5 / 100
      else tax_config.salvage_value_rate / 100
    decliningRows
      (if 0 < tax_config.building_useful_life then
        1 - (salvage_rate : ℝ) ^ ((1 : ℝ) / (tax_config.building_useful_life : ℝ)) else 0)
      (if 0 < tax_config.electrolyzer_useful_life then
        1 - (salvage_rate : ℝ) ^ ((1 : ℝ) / (tax_config.electrolyzer_useful_life : ℝ)) else 0)
      ((building_salvage : ℚ) : ℝ) ((equipment_salvage : ℚ) : ℝ)
      tax_config.building_useful_life tax_config.electrolyzer_useful_life
      project_lifetime.toNat 1 ((building_capex : ℚ) : ℝ) ((equipment_capex : ℚ) : ℝ)
  else
    (List.range project_lifetime.toNat).map (fun i =>
      (if ((i + 1 : ℕ) : ℤ) ≤ tax_config.building_useful_life then
        (((building_capex - building_salvage : ℚ)) : ℝ) / (tax_config.building_useful_life : ℝ)
      else 0) +
      (if ((i + 1 : ℕ) : ℤ) ≤ tax_config.electrolyzer_useful_life then
        (((equipment_capex - equipment_salvage : ℚ)) : ℝ) /
          (tax_config.electrolyzer_useful_life : ℝ)
      else 0))

/-- The Korean corporate-tax brackets of financial.py lines 578-583, as
`(upper limit, rate %)` with `none` for the unbounded last bracket. -/
def taxBrackets : List (Option ℚ × ℚ) :=
  [(some 200000000, 10), (some 20000000000, 20), (some 300000000000, 22), (none, 25)]

/-- The bracket loop of `calculate_corporate_tax` (financial.py
lines 585-598). -/
noncomputable def bracketTax : List (Option ℚ × ℚ) → ℝ → ℚ → ℝ
  | [], _, _ => 0
  | (limit, rate) :: rest, remaining_income, prev_limit =>
    if remaining_income ≤ 0 then 0
    else
      (match limit with
        | some l => min remaining_income ((l : ℝ) - (prev_limit : ℝ))
        | none => remaining_income) * ((rate : ℝ) / 100) +
      bracketTax rest
        (remaining_income -
          (match limit with
            | some l => min remaining_income ((l : ℝ) - (prev_limit : ℝ))
            | none => remaining_income))
        (limit.getD prev_limit)

/-- `calculate_corporate_tax` (financial.py lines 544-603): zero for
non-positive income, else progressive brackets plus a 10 % local surtax, or
a flat blended rate when `use_progressive` is off. -/
noncomputable def calculate_corporate_tax (taxable_income : ℝ) (tax_config : TaxConfig)
    (use_progressive : Bool := true) : ℝ :=
  if taxable_income ≤ 0 then 0
  else if ¬use_progressive then
    taxable_income * (((tax_config.corporate_tax_rate + tax_config.local_tax_rate : ℚ) : ℝ) / 100)
  else
    bracketTax taxBrackets taxable_income 0 +
      bracketTax taxBrackets taxable_income 0 * (10 / 100)

/-! ### `run_financial_analysis` (financial.py lines 802-1113)

The body of the run is split into one named definition per intermediate
quantity; `year` is the 1-based project year throughout, and the
`yearly_*` input lists are indexed `year - 1` with a 0 default beyond their
length, as the `if idx < len(...) else 0` guards do. -/

/-- `capex_subsidy_total` (financial.py line 845). -/
def capexSubsidyTotal (config : FinancialConfig) : ℚ :=
  (incentivesOf config).capex_subsidy +
    config.capex * ((incentivesOf config).capex_subsidy_rate / 100)

/-- `net_capex = capex - capex_subsidy_total` (financial.py line 846). -/
def netCapex (config : FinancialConfig) : ℚ :=
  config.capex - capexSubsidyTotal config

/-- `idc_amount` of the run (financial.py lines 849-856). -/
noncomputable def idcAmount (config : FinancialConfig) : ℝ :=
  idcAmountOf (netCapex config) config.construction_period config.capex_schedule
    config.debt_ratio config.interest_rate config.include_idc

/-- `effective_capex = total_capex_with_idc` — the post-subsidy, post-IDC
CAPEX (financial.py lines 849-859). -/
noncomputable def effectiveCapex (config : FinancialConfig) : ℝ :=
  totalCapexWithIdcOf (netCapex config) config.construction_period config.capex_schedule
    config.debt_ratio config.interest_rate config.include_idc

/-- `itc_amount` (financial.py line 862). -/
def itcAmount (config : FinancialConfig) : ℚ :=
  if (incentivesOf config).itc_enabled then
    config.capex * ((incentivesOf config).itc_rate / 100)
  else 0

/-- `debt_amount = effective_capex * (debt_ratio / 100)`
(financial.py line 865). -/
noncomputable def debtAmount (config : FinancialConfig) : ℝ :=
  effectiveCapex config * ((config.debt_ratio : ℝ) / 100)

/-- `equity_amount = effective_capex - debt_amount` (financial.py
line 866). -/
noncomputable def equityAmount (config : FinancialConfig) : ℝ :=
  effectiveCapex config - debtAmount config

/-- `annual_opex = capex * (opex_ratio / 100)` (financial.py line 869). -/
def annualOpex (config : FinancialConfig) : ℚ :=
  config.capex * (config.opex_ratio / 100)

/-- `working_capital` (financial.py line 872). -/
def workingCapital (config : FinancialConfig) : ℚ :=
  calculate_working_capital (annualOpex config) config.working_capital_months

/-- `salvage_value` (financial.py lines 875-880). -/
def salvageValue (config : FinancialConfig) : ℚ :=
  (calculate_salvage_value config.capex (taxConfigOf config).salvage_value_rate
    config.project_lifetime config.discount_rate).1

/-- The per-year debt schedule of the run (financial.py lines 883-890). -/
noncomputable def debtScheduleOf (config : FinancialConfig) : List (ℝ × ℝ × ℝ) :=
  calculate_debt_service_detailed (debtAmount config) config.interest_rate
    config.loan_tenor config.grace_period config.project_lifetime config.repayment_method

/-- The depreciation schedule of the run (financial.py lines 893-897). -/
noncomputable def depreciationSchedule (config : FinancialConfig) : List ℝ :=
  calculate_depreciation config.capex (taxConfigOf config) config.project_lifetime

/-- The stack replacement years (financial.py lines 899-914): the given list
when provided, else every `int(k * years_per_stack)` below the project
lifetime, with `years_per_stack = stack_lifetime_hours / annual_hours` and
`annual_hours` defaulting to `8760 * 0.85`. -/
def stackYearsOf (config : FinancialConfig) (stack_replacement_years : Option (List ℤ))
    (actual_operating_hours_per_year : Option ℚ) : List ℤ :=
  match stack_replacement_years with
  | some ys => ys
  | none =>
    let annual_hours : ℚ := actual_operating_hours_per_year.getD (8760 * (85 / 100))
    if 0 < annual_hours ∧ 0 < config.stack_lifetime_hours then
      (List.range (⌈(config.project_lifetime : ℚ) /
          ((config.stack_lifetime_hours : ℚ) / annual_hours)⌉ - 1).toNat).map
        (fun k => ⌊((k : ℚ) + 1) * ((config.stack_lifetime_hours : ℚ) / annual_hours)⌋)
    else []

/-- `revenue` of one year (financial.py line 934). -/
def revenueY (yearly_revenues : List ℚ) (year : ℕ) : ℚ :=
  yearly_revenues.getD (year - 1) 0

/-- `elec_cost` of one year (financial.py lines 935-939). -/
def elecCostY (yearly_electricity_costs : List ℚ) (year : ℕ) : ℚ :=
  yearly_electricity_costs.getD (year - 1) 0

/-- `h2_production` of one year (financial.py line 940). -/
def h2ProductionY (yearly_h2_production : List ℚ) (year : ℕ) : ℚ :=
  yearly_h2_production.getD (year - 1) 0

/-- `operating_subsidy`, gated by its duration window (financial.py
lines 944-946). -/
def operatingSubsidyY (config : FinancialConfig) (yearly_h2_production : List ℚ)
    (year : ℕ) : ℚ :=
  if 0 < (incentivesOf config).operating_subsidy ∧
      (year : ℤ) ≤ (incentivesOf config).operating_subsidy_duration then
    h2ProductionY yearly_h2_production year * (incentivesOf config).operating_subsidy
  else 0

/-- `carbon_credit_revenue` (financial.py lines 949-951). -/
def carbonCreditRevenueY (config : FinancialConfig) (yearly_h2_production : List ℚ)
    (year : ℕ) : ℚ :=
  if (incentivesOf config).carbon_credit_enabled then
    h2ProductionY yearly_h2_production year * (incentivesOf config).carbon_credit_price
  else 0

/-- `clean_h2_premium_revenue` (financial.py lines 954-956). -/
def cleanH2PremiumY (config : FinancialConfig) (yearly_h2_production : List ℚ)
    (year : ℕ) : ℚ :=
  if (incentivesOf config).clean_h2_certification_enabled then
    h2ProductionY yearly_h2_production year * (incentivesOf config).clean_h2_premium
  else 0

/-- `incentive_revenue` (financial.py line 959). -/
def incentiveRevenueY (config : FinancialConfig) (yearly_h2_production : List ℚ)
    (year : ℕ) : ℚ :=
  operatingSubsidyY config yearly_h2_production year +
    carbonCreditRevenueY config yearly_h2_production year +
    cleanH2PremiumY config yearly_h2_production year

/-- `total_revenue = revenue + incentive_revenue` (financial.py line 960). -/
def totalRevenueY (config : FinancialConfig) (yearly_revenues yearly_h2_production : List ℚ)
    (year : ℕ) : ℚ :=
  revenueY yearly_revenues year + incentiveRevenueY config yearly_h2_production year

/-- `stack_cost` (financial.py lines 963-967). -/
def stackCostY (config : FinancialConfig) (stack_years : List ℤ) (year : ℕ) : ℚ :=
  if (year : ℤ) ∈ stack_years then config.stack_replacement_cost else 0

/-- `total_opex = annual_opex + elec_cost + stack_cost`
(financial.py line 978). -/
def totalOpexY (config : FinancialConfig) (yearly_electricity_costs : List ℚ)
    (stack_years : List ℤ) (year : ℕ) : ℚ :=
  annualOpex config + elecCostY yearly_electricity_costs year +
    stackCostY config stack_years year

/-- `ebitda = total_revenue - total_opex` (financial.py line 979). -/
def ebitdaY (config : FinancialConfig)
    (yearly_revenues yearly_electricity_costs yearly_h2_production : List ℚ)
    (stack_years : List ℤ) (year : ℕ) : ℚ :=
  totalRevenueY config yearly_revenues yearly_h2_production year -
    totalOpexY config yearly_electricity_costs stack_years year

/-- `depreciation` of one year (financial.py line 970). -/
noncomputable def depreciationY (config : FinancialConfig) (year : ℕ) : ℝ :=
  (depreciationSchedule config).getD (year - 1) 0

/-- `ds` of one year (financial.py line 973). -/
noncomputable def dsY (config : FinancialConfig) (year : ℕ) : ℝ :=
  ((debtScheduleOf config).getD (year - 1) (0, 0, 0)).1

/-- `interest` of one year (financial.py line 974). -/
noncomputable def interestY (config : FinancialConfig) (year : ℕ) : ℝ :=
  ((debtScheduleOf config).getD (year - 1) (0, 0, 0)).2.1

/-- `principal` of one year (financial.py line 975). -/
noncomputable def principalY (config : FinancialConfig) (year : ℕ) : ℝ :=
  ((debtScheduleOf config).getD (year - 1) (0, 0, 0)).2.2

/-- `ebit = ebitda - depreciation` (financial.py line 982). -/
noncomputable def ebitY (config : FinancialConfig)
    (yearly_revenues yearly_electricity_costs yearly_h2_production : List ℚ)
    (stack_years : List ℤ) (year : ℕ) : ℝ :=
  ((ebitdaY config yearly_revenues yearly_electricity_costs yearly_h2_production
      stack_years year : ℚ) : ℝ) - depreciationY config year

/-- `ebt = ebit - interest` (financial.py line 985). -/
noncomputable def ebtY (config : FinancialConfig)
    (yearly_revenues yearly_electricity_costs yearly_h2_production : List ℚ)
    (stack_years : List ℤ) (year : ℕ) : ℝ :=
  ebitY config yearly_revenues yearly_electricity_costs yearly_h2_production
    stack_years year - interestY config year

/-- `ptc_credit`, gated by the PTC duration window (financial.py
lines 989-991). -/
def ptcCreditY (config : FinancialConfig) (yearly_h2_production : List ℚ)
    (year : ℕ) : ℚ :=
  if (incentivesOf config).ptc_enabled ∧ (year : ℤ) ≤ (incentivesOf config).ptc_duration then
    h2ProductionY yearly_h2_production year * (incentivesOf config).ptc_amount
  else 0

/-- `itc_credit`, applied in year 1 only (financial.py line 994). -/
def itcCreditY (config : FinancialConfig) (year : ℕ) : ℚ :=
  if year = 1 then itcAmount config else 0

/-- `gross_tax = calculate_corporate_tax(ebt, tax_config) if ebt > 0 else 0`
(financial.py line 997). -/
noncomputable def grossTaxY (config : FinancialConfig)
    (yearly_revenues yearly_electricity_costs yearly_h2_production : List ℚ)
    (stack_years : List ℤ) (year : ℕ) : ℝ :=
  if 0 < ebtY config yearly_revenues yearly_electricity_costs yearly_h2_production
      stack_years year then
    calculate_corporate_tax (ebtY config yearly_revenues yearly_electricity_costs
      yearly_h2_production stack_years year) (taxConfigOf config)
  else 0

/-- `tax = max(0, gross_tax - ptc_credit - itc_credit)`
(financial.py line 998). -/
noncomputable def taxY (config : FinancialConfig)
    (yearly_revenues yearly_electricity_costs yearly_h2_production : List ℚ)
    (stack_years : List ℤ) (year : ℕ) : ℝ :=
  max 0 (grossTaxY config yearly_revenues yearly_electricity_costs yearly_h2_production
      stack_years year -
    ((ptcCreditY config yearly_h2_production year : ℚ) : ℝ) -
    ((itcCreditY config year : ℚ) : ℝ))

/-- `net_income = ebt - tax` (financial.py line 1001). -/
noncomputable def netIncomeY (config : FinancialConfig)
    (yearly_revenues yearly_electricity_costs yearly_h2_production : List ℚ)
    (stack_years : List ℤ) (year : ℕ) : ℝ :=
  ebtY config yearly_revenues yearly_electricity_costs yearly_h2_production
      stack_years year -
    taxY config yearly_revenues yearly_electricity_costs yearly_h2_production
      stack_years year

/-- `terminal_value`, added in the final project year only (financial.py
lines 1016-1021). -/
def terminalValueY (config : FinancialConfig) (year : ℕ) : ℚ :=
  if (year : ℤ) = config.project_lifetime then salvageValue config + workingCapital config
  else 0

/-- `net_cf_project = ebitda` plus the terminal value in the final year
(financial.py lines 1005, 1019). -/
noncomputable def netCFProjectY (config : FinancialConfig)
    (yearly_revenues yearly_electricity_costs yearly_h2_production : List ℚ)
    (stack_years : List ℤ) (year : ℕ) : ℝ :=
  ((ebitdaY config yearly_revenues yearly_electricity_costs yearly_h2_production
      stack_years year : ℚ) : ℝ) + ((terminalValueY config year : ℚ) : ℝ)

/-- `net_cf_before_tax = ebitda - ds` plus the terminal value in the final
year (financial.py lines 1008, 1020). -/
noncomputable def netCFBeforeTaxY (config : FinancialConfig)
    (yearly_revenues yearly_electricity_costs yearly_h2_production : List ℚ)
    (stack_years : List ℤ) (year : ℕ) : ℝ :=
  ((ebitdaY config yearly_revenues yearly_electricity_costs yearly_h2_production
      stack_years year : ℚ) : ℝ) - dsY config year +
    ((terminalValueY config year : ℚ) : ℝ)

/-- `net_cf_after_tax = net_income + depreciation - principal` plus the
terminal value in the final year (financial.py lines 1013, 1021). -/
noncomputable def netCFAfterTaxY (config : FinancialConfig)
    (yearly_revenues yearly_electricity_costs yearly_h2_production : List ℚ)
    (stack_years : List ℤ) (year : ℕ) : ℝ :=
  netIncomeY config yearly_revenues yearly_electricity_costs yearly_h2_production
      stack_years year +
    depreciationY config year - principalY config year +
    ((terminalValueY config year : ℚ) : ℝ)

/-- `initial_project_investment = effective_capex + working_capital`
(financial.py line 919). -/
noncomputable def initialProjectInvestment (config : FinancialConfig) : ℝ :=
  effectiveCapex config + ((workingCapital config : ℚ) : ℝ)

/-- `initial_equity_investment = equity_amount + working_capital`
(financial.py line 920). -/
noncomputable def initialEquityInvestment (config : FinancialConfig) : ℝ :=
  equityAmount config + ((workingCapital config : ℚ) : ℝ)

/-- The running `cumulative` after a given year: `-initial_equity_investment`
plus the before-tax net cash flows up to it (financial.py lines 928, 1026). -/
noncomputable def cumulativeY (config : FinancialConfig)
    (yearly_revenues yearly_electricity_costs yearly_h2_production : List ℚ)
    (stack_years : List ℤ) (year : ℕ) : ℝ :=
  -(initialEquityInvestment config) +
    ∑ k ∈ Finset.range year,
      netCFBeforeTaxY config yearly_revenues yearly_electricity_costs
        yearly_h2_production stack_years (k + 1)

/-- `dscr = ebitda / ds if ds > 0 else float("inf")` (financial.py
line 1029), with `float("inf")` embedded as `⊤ : EReal`. -/
noncomputable def dscrY (config : FinancialConfig)
    (yearly_revenues yearly_electricity_costs yearly_h2_production : List ℚ)
    (stack_years : List ℤ) (year : ℕ) : EReal :=
  if 0 < dsY config year then
    ((((ebitdaY config yearly_revenues yearly_electricity_costs yearly_h2_production
        stack_years year : ℚ) : ℝ) / dsY config year : ℝ) : EReal)
  else ⊤

/-- `dscr_values`: the finite DSCRs appended only for years with positive
debt service (financial.py lines 1030-1031). -/
noncomputable def dscrValues (config : FinancialConfig)
    (yearly_revenues yearly_electricity_costs yearly_h2_production : List ℚ)
    (stack_years : List ℤ) : List ℝ :=
  ((List.range config.project_lifetime.toNat).map (· + 1)).filterMap
    (fun year =>
      if 0 < dsY config year then
        some (((ebitdaY config yearly_revenues yearly_electricity_costs
          yearly_h2_production stack_years year : ℚ) : ℝ) / dsY config year)
      else none)

/-- `YearlyCashflow` (financial.py lines 92-111). -/
structure YearlyCashflow where
  year : ℕ
  revenue : ℚ
  opex : ℚ
  stack_replacement : ℚ
  debt_service : ℝ
  net_cashflow : ℝ
  cumulative_cashflow : ℝ
  dscr : EReal
  depreciation : ℝ
  ebitda : ℚ
  ebit : ℝ
  interest_expense : ℝ
  principal_repayment : ℝ
  tax : ℝ
  net_cashflow_after_tax : ℝ

/-- An all-zero cash-flow row (out-of-range default). -/
noncomputable def yc0 : YearlyCashflow :=
  { year := 0, revenue := 0, opex := 0, stack_replacement := 0, debt_service := 0
    net_cashflow := 0, cumulative_cashflow := 0, dscr := 0, depreciation := 0
    ebitda := 0, ebit := 0, interest_expense := 0, principal_repayment := 0
    tax := 0, net_cashflow_after_tax := 0 }

/-- The `YearlyCashflow` record appended for one project year
(financial.py lines 1033-1052). -/
noncomputable def yearlyCashflowY (config : FinancialConfig)
    (yearly_revenues yearly_electricity_costs yearly_h2_production : List ℚ)
    (stack_years : List ℤ) (year : ℕ) : YearlyCashflow where
  year := year
  revenue := totalRevenueY config yearly_revenues yearly_h2_production year
  opex := totalOpexY config yearly_electricity_costs stack_years year
  stack_replacement := stackCostY config stack_years year
  debt_service := dsY config year
  net_cashflow := netCFBeforeTaxY config yearly_revenues yearly_electricity_costs
    yearly_h2_production stack_years year
  cumulative_cashflow := cumulativeY config yearly_revenues yearly_electricity_costs
    yearly_h2_production stack_years year
  dscr := dscrY config yearly_revenues yearly_electricity_costs yearly_h2_production
    stack_years year
  depreciation := depreciationY config year
  ebitda := ebitdaY config yearly_revenues yearly_electricity_costs yearly_h2_production
    stack_years year
  ebit := ebitY config yearly_revenues yearly_electricity_costs yearly_h2_production
    stack_years year
  interest_expense := interestY config year
  principal_repayment := principalY config year
  tax := taxY config yearly_revenues yearly_electricity_costs yearly_h2_production
    stack_years year
  net_cashflow_after_tax := netCFAfterTaxY config yearly_revenues
    yearly_electricity_costs yearly_h2_production stack_years year

/-- The `yearly_cashflows` list over years `1, …, project_lifetime`
(financial.py lines 927-1052). -/
noncomputable def yearlyCashflowsList (config : FinancialConfig)
    (yearly_revenues yearly_electricity_costs yearly_h2_production : List ℚ)
    (stack_years : List ℤ) : List YearlyCashflow :=
  (List.range config.project_lifetime.toNat).map
    (fun i => yearlyCashflowY config yearly_revenues yearly_electricity_costs
      yearly_h2_production stack_years (i + 1))

/-- The test of `_calculate_payback`'s loop: a non-negative cumulative
cash flow (financial.py line 1271). -/
noncomputable def paybackPred : YearlyCashflow → Bool :=
  fun cf => decide (0 ≤ cf.cumulative_cashflow)

/-- `_calculate_payback` (financial.py lines 1268-1279): the project-year
count when the cumulative cash flow never turns non-negative; `1.0` when it
is already non-negative at the first row; otherwise the 0-based index of the
first non-negative row plus the interpolation fraction
`-prev_cumulative / net_cashflow`. -/
noncomputable def calculatePayback (yearly_cashflows : List YearlyCashflow) : ℝ :=
  match yearly_cashflows.findIdx? paybackPred with
  | none => (yearly_cashflows.length : ℝ)
  | some 0 => 1
  | some (i + 1) =>
    ((i + 1 : ℕ) : ℝ) +
      -(yearly_cashflows.getD i yc0).cumulative_cashflow /
        (yearly_cashflows.getD (i + 1) yc0).net_cashflow

/-- `calculate_lcoh_accurate` (financial.py lines 740-799); a missing
stack-replacement list is passed as `[]`. -/
def calculate_lcoh_accurate (total_capex annual_opex : ℚ)
    (yearly_h2_production yearly_electricity_costs : List ℚ) (discount_rate : ℚ)
    (project_lifetime : ℤ) (stack_replacement_years : List ℤ)
    (stack_replacement_cost : ℚ) : ℚ :=
  let r := discount_rate / 100
  let total_cost_pv := total_capex +
    ∑ i ∈ Finset.range project_lifetime.toNat,
      (annual_opex + yearly_electricity_costs.getD i 0 +
        (if ((i + 1 : ℕ) : ℤ) ∈ stack_replacement_years then stack_replacement_cost else 0)) /
        (1 + r) ^ (i + 1)
  let total_h2_pv := ∑ i ∈ Finset.range project_lifetime.toNat,
    yearly_h2_production.getD i 0 / (1 + r) ^ (i + 1)
  if total_h2_pv ≤ 0 then 0 else total_cost_pv / total_h2_pv

/-- `calculate_llcr_plcr` (financial.py lines 636-693): discounted CFADS
(`ebitda - tax`) over the loan tenor and over the project life, divided by
the loan-side debt amount `capex * debt_ratio / 100`; `(⊤, ⊤)` when that
debt amount is non-positive. -/
noncomputable def calculate_llcr_plcr (config : FinancialConfig)
    (yearly_cashflows : List YearlyCashflow) : EReal × EReal :=
  if config.capex * (config.debt_ratio / 100) ≤ 0 then (⊤, ⊤)
  else
    ((((∑ i ∈ Finset.range yearly_cashflows.length,
        (if ((i + 1 : ℕ) : ℤ) ≤ config.loan_tenor then
          (((yearly_cashflows.getD i yc0).ebitda : ℚ) : ℝ) -
            (yearly_cashflows.getD i yc0).tax
        else 0) / (1 + (config.discount_rate : ℝ) / 100) ^ (i + 1)) /
      ((config.capex * (config.debt_ratio / 100) : ℚ) : ℝ) : ℝ) : EReal),
     (((∑ i ∈ Finset.range yearly_cashflows.length,
        ((((yearly_cashflows.getD i yc0).ebitda : ℚ) : ℝ) -
          (yearly_cashflows.getD i yc0).tax) /
          (1 + (config.discount_rate : ℝ) / 100) ^ (i + 1)) /
      ((config.capex * (config.debt_ratio / 100) : ℚ) : ℝ) : ℝ) : EReal))

/-- `calculate_equity_cashflows` (financial.py lines 606-633): the initial
equity outlay `capex * (1 - debt_ratio/100)` followed by the after-tax net
cash flows. -/
noncomputable def calculate_equity_cashflows (config : FinancialConfig)
    (yearly_cashflows : List YearlyCashflow) : List ℝ :=
  -(((config.capex * (1 - config.debt_ratio / 100) : ℚ)) : ℝ) ::
    yearly_cashflows.map (·.net_cashflow_after_tax)

/-- `cashflows_project` (financial.py lines 923, 1023). -/
noncomputable def cashflowsProject (config : FinancialConfig)
    (yearly_revenues yearly_electricity_costs yearly_h2_production : List ℚ)
    (stack_years : List ℤ) : List ℝ :=
  -(initialProjectInvestment config) ::
    (List.range config.project_lifetime.toNat).map
      (fun i => netCFProjectY config yearly_revenues yearly_electricity_costs
        yearly_h2_production stack_years (i + 1))

/-- `cashflows_after_tax` (financial.py lines 926, 1025). -/
noncomputable def cashflowsAfterTax (config : FinancialConfig)
    (yearly_revenues yearly_electricity_costs yearly_h2_production : List ℚ)
    (stack_years : List ℤ) : List ℝ :=
  -(initialEquityInvestment config) ::
    (List.range config.project_lifetime.toNat).map
      (fun i => netCFAfterTaxY config yearly_revenues yearly_electricity_costs
        yearly_h2_production stack_years (i + 1))

/-- `dscr_min = min(dscr_values) if dscr_values else 0`
(financial.py line 1092). -/
noncomputable def dscrMin (config : FinancialConfig)
    (yearly_revenues yearly_electricity_costs yearly_h2_production : List ℚ)
    (stack_years : List ℤ) : ℝ :=
  match dscrValues config yearly_revenues yearly_electricity_costs yearly_h2_production
      stack_years with
  | [] => 0
  | x :: xs => xs.foldl min x

/-- `dscr_avg = sum(dscr_values) / len(dscr_values) if dscr_values else 0`
(financial.py line 1093). -/
noncomputable def dscrAvg (config : FinancialConfig)
    (yearly_revenues yearly_electricity_costs yearly_h2_production : List ℚ)
    (stack_years : List ℤ) : ℝ :=
  match dscrValues config yearly_revenues yearly_electricity_costs yearly_h2_production
      stack_years with
  | [] => 0
  | x :: xs => (x :: xs).sum / ((x :: xs).length : ℝ)

/-- `FinancialResult` (financial.py lines 114-135). -/
structure FinancialResult where
  npv : ℝ
  irr : ℝ
  payback_period : ℝ
  lcoh : ℚ
  dscr_min : ℝ
  dscr_avg : ℝ
  yearly_cashflows : List YearlyCashflow
  npv_after_tax : ℝ
  equity_irr : ℝ
  llcr : EReal
  plcr : EReal
  total_capex_with_idc : ℝ
  idc_amount : ℝ
  working_capital : ℚ
  salvage_value : ℚ

/-- The `FinancialResult` built by `run_financial_analysis` once validation
has passed (financial.py lines 838-1113); `irr`/`equity_irr` fall back to 0
when the root-finder reports no solution (the Python truthiness test also
maps an exact 0.0 to 0). -/
noncomputable def financialResultOf (config : FinancialConfig)
    (yearly_revenues yearly_electricity_costs yearly_h2_production : List ℚ)
    (stack_replacement_years : Option (List ℤ))
    (actual_operating_hours_per_year : Option ℚ) : FinancialResult :=
  let sy := stackYearsOf config stack_replacement_years actual_operating_hours_per_year
  { npv := npvAt (cashflowsProject config yearly_revenues yearly_electricity_costs
      yearly_h2_production sy) ((config.discount_rate : ℝ) / 100)
    irr := (calculateIrr (cashflowsProject config yearly_revenues
      yearly_electricity_costs yearly_h2_production sy)).getD 0
    payback_period := calculatePayback (yearlyCashflowsList config yearly_revenues
      yearly_electricity_costs yearly_h2_production sy)
    lcoh := calculate_lcoh_accurate config.capex (annualOpex config) yearly_h2_production
      yearly_electricity_costs config.discount_rate config.project_lifetime sy
      config.stack_replacement_cost
    dscr_min := dscrMin config yearly_revenues yearly_electricity_costs
      yearly_h2_production sy
    dscr_avg := dscrAvg config yearly_revenues yearly_electricity_costs
      yearly_h2_production sy
    yearly_cashflows := yearlyCashflowsList config yearly_revenues
      yearly_electricity_costs yearly_h2_production sy
    npv_after_tax := npvAt (cashflowsAfterTax config yearly_revenues
      yearly_electricity_costs yearly_h2_production sy) ((config.discount_rate : ℝ) / 100)
    equity_irr := (calculateIrr (calculate_equity_cashflows config
      (yearlyCashflowsList config yearly_revenues yearly_electricity_costs
        yearly_h2_production sy))).getD 0
    llcr := (calculate_llcr_plcr config (yearlyCashflowsList config yearly_revenues
      yearly_electricity_costs yearly_h2_production sy)).1
    plcr := (calculate_llcr_plcr config (yearlyCashflowsList config yearly_revenues
      yearly_electricity_costs yearly_h2_production sy)).2
    total_capex_with_idc := effectiveCapex config
    idc_amount := idcAmount config
    working_capital := workingCapital config
    salvage_value := salvageValue config }

/-- `run_financial_analysis` (financial.py lines 802-1113): the input
validation of lines 830-836, then the full cash-flow model. -/
noncomputable def run_financial_analysis (config : FinancialConfig)
    (yearly_revenues yearly_electricity_costs yearly_h2_production : List ℚ)
    (stack_replacement_years : Option (List ℤ) := none)
    (actual_operating_hours_per_year : Option ℚ := none) :
    Except String FinancialResult :=
  if config.debt_ratio < 0 ∨ 100 < config.debt_ratio then
    .error "debt_ratio must be 0-100%"
  else if config.discount_rate < 0 then
    .error "discount_rate must be non-negative"
  else if config.project_lifetime ≤ 0 then
    .error "project_lifetime must be positive"
  else
    .ok (financialResultOf config yearly_revenues yearly_electricity_costs
      yearly_h2_production stack_replacement_years actual_operating_hours_per_year)

/-! ### Theorems on the financial model -/

/-- C5: the capital split of `run_financial_analysis` is exact — the debt
and equity amounts sum to the effective (post-subsidy, post-IDC) CAPEX for
every debt ratio in `[0, 100]`; in the real-number model the identity is
exact, hence within any floating tolerance. -/
theorem C5_theorem (config : FinancialConfig) (h0 : 0 ≤ config.debt_ratio)
    (h100 : config.debt_ratio ≤ 100) :
    debtAmount config + equityAmount config = effectiveCapex config := by
  unfold equityAmount
  ring

/-- A baseline financial configuration: 15 bn capital cost, 70 % debt at
5 % over 15 years, 8 % discount rate, 20-year life. -/
def fcfg70 : FinancialConfig :=
  { capex := 15000000000
    opex_ratio := 3
    stack_replacement_cost := 1650000000
    stack_lifetime_hours := 60000
    discount_rate := 8
    project_lifetime := 20
    debt_ratio := 70
    interest_rate := 5
    loan_tenor := 15
    construction_period := 1
    grace_period := 1
    tax_config := none
    capex_schedule := none
    repayment_method := "equal_payment"
    working_capital_months := 2
    include_idc := true
    incentives_config := none }

/-- C5's theorem instantiated at the baseline configuration. -/
theorem C5_witness :
    debtAmount fcfg70 + equityAmount fcfg70 = effectiveCapex fcfg70 :=
  C5_theorem fcfg70 (by norm_num [fcfg70]) (by norm_num [fcfg70])

/-- C7: the corporate tax recorded in every yearly cash-flow row is
non-negative — the production and investment tax credits are subtracted but
clamped at zero — the PTC credit vanishes outside its duration window, and
the ITC credit vanishes outside year 1. -/
theorem C7_theorem : ∀ (config : FinancialConfig)
    (yearly_revenues yearly_electricity_costs yearly_h2_production : List ℚ)
    (stack_years : List ℤ) (year : ℕ),
    0 ≤ taxY config yearly_revenues yearly_electricity_costs yearly_h2_production
      stack_years year ∧
    (yearlyCashflowY config yearly_revenues yearly_electricity_costs
        yearly_h2_production stack_years year).tax =
      taxY config yearly_revenues yearly_electricity_costs yearly_h2_production
        stack_years year ∧
    ((incentivesOf config).ptc_duration < (year : ℤ) →
      ptcCreditY config yearly_h2_production year = 0) ∧
    (year ≠ 1 → itcCreditY config year = 0) := by
  intro config yearly_revenues yearly_electricity_costs yearly_h2_production
    stack_years year
  refine ⟨le_max_left 0 _, rfl, ?_, ?_⟩
  · intro hdur
    rw [ptcCreditY, if_neg]
    rintro ⟨-, hle⟩
    exact absurd hle (not_le.mpr hdur)
  · intro hy
    rw [itcCreditY, if_neg hy]

/-- `filterMap` with a guard is `filter` followed by `map`. -/
theorem filterMap_ite {α β : Type} (p : α → Prop) [DecidablePred p] (f : α → β)
    (l : List α) :
    l.filterMap (fun a => if p a then some (f a) else none) =
      (l.filter (fun a => decide (p a))).map f := by
  induction l with
  | nil => rfl
  | cons a t ih =>
    rw [List.filterMap_cons, List.filter_cons]
    by_cases h : p a
    · simp [h, ih]
    · simp [h, ih]

/-- C8: a year with zero debt service gets the DSCR `+∞` (the division is
guarded, no error is raised), that value is what the yearly cash-flow row
records, and the `dscr_values` feeding `dscr_min`/`dscr_avg` are exactly the
finite ratios of the years with positive debt service. -/
theorem C8_theorem (config : FinancialConfig)
    (yearly_revenues yearly_electricity_costs yearly_h2_production : List ℚ)
    (stack_years : List ℤ) (year : ℕ)
    (h : dsY config year = 0) :
    dscrY config yearly_revenues yearly_electricity_costs yearly_h2_production
      stack_years year = ⊤ ∧
    (yearlyCashflowY config yearly_revenues yearly_electricity_costs
        yearly_h2_production stack_years year).dscr =
      dscrY config yearly_revenues yearly_electricity_costs yearly_h2_production
        stack_years year ∧
    dscrValues config yearly_revenues yearly_electricity_costs yearly_h2_production
        stack_years =
      (((List.range config.project_lifetime.toNat).map (· + 1)).filter
        (fun y => decide (0 < dsY config y))).map
        (fun y => ((ebitdaY config yearly_revenues yearly_electricity_costs
          yearly_h2_production stack_years y : ℚ) : ℝ) / dsY config y) := by
  refine ⟨?_, rfl, ?_⟩
  · rw [dscrY, if_neg]
    rw [h]
    exact lt_irrefl 0
  · exact filterMap_ite _ _ _

/-- The baseline configuration financed with no debt at all. -/
def c8Config : FinancialConfig :=
  { fcfg70 with debt_ratio := 0 }

/-- With a zero debt ratio the debt amount is zero. -/
theorem c8Config_debtAmount : debtAmount c8Config = 0 := by
  rw [debtAmount, show c8Config.debt_ratio = 0 from rfl]
  norm_num

/-- With a zero debt ratio every year's debt service is zero. -/
theorem c8Config_dsY (year : ℕ) : dsY c8Config year = 0 := by
  rw [dsY, debtScheduleOf, c8Config_debtAmount, calculate_debt_service_detailed]
  rw [if_neg (by decide), if_pos (Or.inl (le_refl (0 : ℝ)))]
  rw [getD_replicate_self]

/-- C8's theorem instantiated at the all-equity configuration, year 1. -/
theorem C8_witness :
    dscrY c8Config [] [] [] [] 1 = ⊤ ∧
    (yearlyCashflowY c8Config [] [] [] [] 1).dscr = dscrY c8Config [] [] [] [] 1 ∧
    dscrValues c8Config [] [] [] [] =
      (((List.range c8Config.project_lifetime.toNat).map (· + 1)).filter
        (fun y => decide (0 < dsY c8Config y))).map
        (fun y => ((ebitdaY c8Config [] [] [] [] y : ℚ) : ℝ) / dsY c8Config y) :=
  C8_theorem c8Config [] [] [] [] 1 (c8Config_dsY 1)

/-- C9: an hourly series of the wrong length makes the dispatch model fail
with an error before computing anything, and a debt ratio outside
`[0, 100]`, a negative discount rate or a non-positive project lifetime
makes the financial model fail with an error before any cash flow is
built — in both cases the error result carries no partial data. -/
theorem C9_theorem (config_e : Energy8760Config) (electricity_prices : List ℚ)
    (renewable_output : Option (List ℚ)) (h2_price : ℚ) (year : ℕ)
    (draw : ℕ → ℕ → ℚ)
    (hlen : electricity_prices.length ≠ 8760)
    (config_f : FinancialConfig)
    (yearly_revenues yearly_electricity_costs yearly_h2_production : List ℚ)
    (stack_replacement_years : Option (List ℤ))
    (actual_operating_hours_per_year : Option ℚ)
    (hbad : config_f.debt_ratio < 0 ∨ 100 < config_f.debt_ratio ∨
      config_f.discount_rate < 0 ∨ config_f.project_lifetime ≤ 0) :
    (∃ msg, calculate_8760 config_e electricity_prices renewable_output h2_price year
      draw = .error msg) ∧
    (∃ msg, run_financial_analysis config_f yearly_revenues yearly_electricity_costs
      yearly_h2_production stack_replacement_years actual_operating_hours_per_year
      = .error msg) := by
  constructor
  · exact ⟨_, by unfold calculate_8760; rw [if_pos hlen]⟩
  · unfold run_financial_analysis
    by_cases h1 : config_f.debt_ratio < 0 ∨ 100 < config_f.debt_ratio
    · exact ⟨_, by rw [if_pos h1]⟩
    · rw [if_neg h1]
      by_cases h2 : config_f.discount_rate < 0
      · exact ⟨_, by rw [if_pos h2]⟩
      · rw [if_neg h2]
        by_cases h3 : config_f.project_lifetime ≤ 0
        · exact ⟨_, by rw [if_pos h3]⟩
        · rcases hbad with h | h | h | h
          · exact absurd (Or.inl h) h1
          · exact absurd (Or.inr h) h1
          · exact absurd h h2
          · exact absurd h h3

/-- The baseline configuration with an out-of-range 150 % debt ratio. -/
def c9Config : FinancialConfig :=
  { fcfg70 with debt_ratio := 150 }

/-- C9's theorem instantiated at an empty price series and the 150 %-debt
configuration. -/
theorem C9_witness :
    (∃ msg, calculate_8760 c1Config [] none 6000 1 (fun _ _ => 0) = .error msg) ∧
    (∃ msg, run_financial_analysis c9Config [] [] [] none none = .error msg) :=
  C9_theorem c1Config [] none 6000 1 (fun _ _ => 0) (by decide)
    c9Config [] [] [] none none
    (Or.inr (Or.inl (by norm_num [c9Config, fcfg70])))

/-- C10: the payback edge cases.  If the cumulative cash flow is negative in
every project year, the payback equals the year count; if it is already
non-negative in the first row, the payback is exactly 1; otherwise, when the
first non-negative cumulative cash flow sits at 0-based index `i + 1` (all
earlier rows negative), the payback is `(i + 1)` plus the interpolation
fraction `-prev_cumulative / net_cashflow`. -/
theorem C10_theorem :
    (∀ yearly_cashflows : List YearlyCashflow,
      (∀ cf ∈ yearly_cashflows, cf.cumulative_cashflow < 0) →
      calculatePayback yearly_cashflows = (yearly_cashflows.length : ℝ)) ∧
    (∀ (c0 : YearlyCashflow) (rest : List YearlyCashflow),
      0 ≤ c0.cumulative_cashflow → calculatePayback (c0 :: rest) = 1) ∧
    (∀ (yearly_cashflows : List YearlyCashflow) (i : ℕ),
      i + 1 < yearly_cashflows.length →
      (∀ j, j ≤ i → (yearly_cashflows.getD j yc0).cumulative_cashflow < 0) →
      0 ≤ (yearly_cashflows.getD (i + 1) yc0).cumulative_cashflow →
      calculatePayback yearly_cashflows = ((i + 1 : ℕ) : ℝ) +
        -(yearly_cashflows.getD i yc0).cumulative_cashflow /
          (yearly_cashflows.getD (i + 1) yc0).net_cashflow) := by
  refine ⟨?_, ?_, ?_⟩
  · intro ycfs hall
    have hfind : ycfs.findIdx? paybackPred = none := by
      rw [List.findIdx?_eq_none_iff]
      intro x hx
      simp only [paybackPred, decide_eq_false_iff_not]
      exact not_le.mpr (hall x hx)
    rw [calculatePayback, hfind]
  · intro c0 rest h0
    have hfind : (c0 :: rest).findIdx? paybackPred = some 0 := by
      rw [List.findIdx?_cons,
        if_pos (show paybackPred c0 = true from decide_eq_true h0)]
    rw [calculatePayback, hfind]
  · intro ycfs i hlen hneg hpos
    have hfind : ycfs.findIdx? paybackPred = some (i + 1) := by
      rw [List.findIdx?_eq_some_iff_getElem]
      refine ⟨hlen, ?_, ?_⟩
      · have : paybackPred (ycfs.getD (i + 1) yc0) = true := decide_eq_true hpos
        rwa [List.getD_eq_getElem _ _ hlen] at this
      · intro j hji
        have hj : (ycfs.getD j yc0).cumulative_cashflow < 0 :=
          hneg j (Nat.lt_succ_iff.mp hji)
        rw [← List.getD_eq_getElem ycfs yc0 (Nat.lt_trans hji hlen)]
        simp only [paybackPred, decide_eq_true_eq]
        exact not_le.mpr hj
    rw [calculatePayback, hfind]

/-! ## `grid_search.py` / `api/routes/optimization.py` — grid search

The combination enumeration and the up-front cap check.  The simulation
payload carried by a request (`base_input`) belongs to the external
configuration layer and plays no part in either computation, so it is not
modelled. -/

/-- `VariableRange` (schemas/optimization.py lines 15-22). -/
structure VariableRange where
  name : String
  display_name : String
  min_value : ℚ
  max_value : ℚ
  step : ℚ
  unit : String

/-- `round(current, 6)` (grid_search.py line 41), rounding to 6 decimal
places.  (Python rounds exact half-ties to even; `round` here rounds them
up — the two agree everywhere else, and no enumerated value sits on such a
tie.) -/
def pyRound6 (q : ℚ) : ℚ :=
  ((round (q * 1000000) : ℤ) : ℚ) / 1000000

/-- The value loop of `generate_combinations` (grid_search.py lines 38-43):
starting at `min_value`, append `round(current, 6)` and advance by `step`
while `current ≤ max_value + step * 0.001`; `fuel` bounds the iterations. -/
def genValuesAux (max_value step : ℚ) : ℕ → ℚ → List ℚ
  | 0, _ => []
  | fuel + 1, current =>
    if current ≤ max_value + step * (1 / 1000) then
      pyRound6 current :: genValuesAux max_value step fuel (current + step)
    else []

/-- Enough fuel to cover every iteration of the value loop whenever
`0 < step` (for `step ≤ 0` the Python loop never terminates on a non-empty
range, which no caller requests). -/
def genValuesFuel (min_value max_value step : ℚ) : ℕ :=
  (⌈(max_value + step * (1 / 1000) - min_value) / step⌉ + 1).toNat

/-- The list of values enumerated for one variable (grid_search.py
lines 30-43). -/
def genValues (min_value max_value step : ℚ) : List ℚ :=
  genValuesAux max_value step (genValuesFuel min_value max_value step) min_value

/-- `itertools.product`, rightmost factor varying fastest
(grid_search.py lines 45-52). -/
def productLists : List (List ℚ) → List (List ℚ)
  | [] => [[]]
  | vs :: rest => vs.flatMap (fun v => (productLists rest).map (fun combo => v :: combo))

/-- `generate_combinations` (grid_search.py lines 19-54): one name-keyed
combination per element of the step-quantized Cartesian product. -/
def generate_combinations (variable_ranges : List VariableRange) :
    List (List (String × ℚ)) :=
  (productLists (variable_ranges.map
      (fun v => genValues v.min_value v.max_value v.step))).map
    (fun combo => (variable_ranges.map (·.name)).zip combo)

/-- Python `int()` on a float: truncation toward zero. -/
def pyIntTrunc (q : ℚ) : ℤ :=
  if 0 ≤ q then ⌊q⌋ else -⌊-q⌋

/-- The up-front combination count of `start_grid_search`
(optimization.py lines 140-143): the product over the requested ranges of
`int((max - min) / step) + 1`. -/
def totalCombinationsOf (variable_ranges : List VariableRange) : ℤ :=
  variable_ranges.foldl
    (fun acc v => acc * (pyIntTrunc ((v.max_value - v.min_value) / v.step) + 1)) 1

/-- `GridSearchRequest` (schemas/optimization.py lines 41-60), restricted to
the fields the endpoint logic reads; the simulation payload `base_input` is
external configuration. -/
structure GridSearchRequest where
  variable_ranges : List VariableRange
  target_kpi : String
  monte_carlo_iterations : ℤ
  max_combinations : ℤ

/-- The response returned by `start_grid_search` before any work happens. -/
structure GridSearchResponse where
  status : String
  progress : ℚ
  total_combinations : ℤ
  completed_combinations : ℤ

/-- `start_grid_search` (optimization.py lines 127-181): reject the request
up front when the combination count exceeds the cap — no job is registered
and no simulation runs — else register a pending job with zero progress. -/
def start_grid_search (request : GridSearchRequest) :
    Except String GridSearchResponse :=
  if request.max_combinations < totalCombinationsOf request.variable_ranges then
    .error "the combination count exceeds the maximum allowed"
  else
    .ok { status := "pending"
          progress := 0
          total_combinations := totalCombinationsOf request.variable_ranges
          completed_combinations := 0 }

/-- The single range `(0, 10, step 5)` enumerates exactly `[0, 5, 10]`. -/
theorem genValues_0_10_5 : genValues 0 10 5 = [0, 5, 10] := by
  have hceil : (⌈((10 : ℚ) + 5 * (1 / 1000) - 0) / 5⌉ : ℤ) = 3 := by
    rw [Int.ceil_eq_iff]
    constructor <;> norm_num
  rw [genValues, genValuesFuel, hceil]
  rw [show ((3 : ℤ) + 1).toNat = 3 + 1 from rfl]
  rw [genValuesAux, if_pos (by norm_num)]
  rw [genValuesAux, if_pos (by norm_num)]
  rw [genValuesAux, if_pos (by norm_num)]
  rw [genValuesAux, if_neg (by norm_num)]
  norm_num [pyRound6, round_eq]

/-- C6: grid search enumerates the step-quantized Cartesian product — the
single range `(0, 10, step 5)` yields exactly the three combinations
`0, 5, 10` — and a request whose combination count exceeds its cap is
rejected up front, before any job or simulation starts. -/
theorem C6_theorem (request : GridSearchRequest)
    (hover : request.max_combinations < totalCombinationsOf request.variable_ranges) :
    generate_combinations [⟨"x", "x", 0, 10, 5, ""⟩] =
      [[("x", 0)], [("x", 5)], [("x", 10)]] ∧
    ∃ msg, start_grid_search request = .error msg := by
  constructor
  · have hm : ([(⟨"x", "x", 0, 10, 5, ""⟩ : VariableRange)]).map
        (fun v => genValues v.min_value v.max_value v.step) = [[0, 5, 10]] := by
      rw [List.map_cons, List.map_nil]
      show [genValues 0 10 5] = [[0, 5, 10]]
      rw [genValues_0_10_5]
    rw [generate_combinations, hm]
    rfl
  · exact ⟨_, by rw [start_grid_search, if_pos hover]⟩

/-- A request over-running its cap: one variable stepped 1001 times against
a cap of 1000. -/
def c6Request : GridSearchRequest :=
  { variable_ranges := [⟨"capex", "CAPEX", 0, 1000, 1, ""⟩]
    target_kpi := "npv_p50"
    monte_carlo_iterations := 1000
    max_combinations := 1000 }

/-- C6's theorem instantiated at the over-cap request. -/
theorem C6_witness :
    generate_combinations [⟨"x", "x", 0, 10, 5, ""⟩] =
      [[("x", 0)], [("x", 5)], [("x", 10)]] ∧
    ∃ msg, start_grid_search c6Request = .error msg :=
  C6_theorem c6Request (by
    have htot : totalCombinationsOf c6Request.variable_ranges = 1001 := by
      rw [show c6Request.variable_ranges
        = [(⟨"capex", "CAPEX", 0, 1000, 1, ""⟩ : VariableRange)] from rfl]
      rw [totalCombinationsOf, List.foldl_cons, List.foldl_nil]
      simp only [pyIntTrunc]
      rw [if_pos (by norm_num)]
      norm_num
    rw [htot]
    decide)

end H8760
